import Mathlib

/-!
# Layer command callbacks of `app/actions/layers-commands.c`

A shallow embedding of the GUI command callbacks of the layers action group.
Every callback is a function on a state `St` made of

* the three file-level statics (`layer_resize_unit`, `layer_scale_unit`,
  `layer_scale_interp`), and
* the chronological log of the calls the callback makes into its
  collaborators (core, undo, progress, widgets, messages), each entry
  paired with the value of the statics at the moment of the call.

Values that the C code obtains by *querying* a collaborator (the width of an
item, the bounds of the selection, the result of `gimp_progress_start`, ...)
are arguments of the embedded function or fields of the snapshot records
below; calls that *act* on a collaborator are log entries.

`gint` values are embedded as `Int`.  The only arithmetic of the file is
`off_x -= x`, `off_y -= y` in crop to selection, embedded as the 32 bit
subtraction `gint_sub`, and `-x`, `-y` in crop to content, applied to the
corner of the content found inside the layer's extent.
-/

namespace LayersCommands

/-! ## Enumerations and handles -/

/-- Measurement unit, the `GimpUnit` of libgimpbase.  Only the two values the
file names, `GIMP_UNIT_PIXEL` and `GIMP_UNIT_PERCENT`, are distinguished by the
code; `other n` stands for every further built-in or user-defined unit. -/
inductive GimpUnit where
  | GIMP_UNIT_PIXEL
  | GIMP_UNIT_PERCENT
  | other (n : Nat)
  deriving DecidableEq, Repr

/-- The C enum `GimpInterpolationType`, kept as the integer the static
`layer_scale_interp` stores: the file uses the value `-1` as "not yet set". -/
abbrev GimpInterpolationType := Int

/-- A `gdouble` that the file only passes on, or halves (`0.5 * height`, exact
for every `gint` height). -/
abbrev gdouble := Rat

/-- The least `gint` (32 bit, `G_MININT`). -/
def G_MININT : Int := -2147483648

/-- The greatest `gint` (32 bit, `G_MAXINT`). -/
def G_MAXINT : Int := 2147483647

/-- Whether an integer is a value of the C type `gint`. -/
def gint_fits (v : Int) : Prop := G_MININT ≤ v ∧ v ≤ G_MAXINT

/-- The `gint` that the 32 bit two's complement representation leaves for the
integer `v`: `v` itself when it fits. -/
def gint_wrap (v : Int) : Int := (v - G_MININT) % 4294967296 + G_MININT

/-- The subtraction `a -= b` on `gint`: the difference when it fits a `gint`.
When it does not fit, C leaves the result undefined; the embedding then takes
the wrapped value the machine subtraction leaves, so that every logged
argument is a `gint`, and the theorems that state a difference assume it
fits. -/
def gint_sub (a b : Int) : Int := gint_wrap (a - b)

/-- Severity argument of `gimp_message_literal`. -/
inductive GimpMessageSeverity where
  | GIMP_MESSAGE_INFO
  | GIMP_MESSAGE_WARNING
  deriving DecidableEq, Repr

/-- Undo kinds named by the file: two group kinds and three item undo kinds. -/
inductive GimpUndoType where
  | GIMP_UNDO_GROUP_EDIT_PASTE
  | GIMP_UNDO_GROUP_ITEM_RESIZE
  | GIMP_UNDO_LAYER_OPACITY
  | GIMP_UNDO_LAYER_MODE
  | GIMP_UNDO_LAYER_LOCK_ALPHA
  deriving DecidableEq, Repr

/-- Result of `gimp_pickable_auto_shrink`. -/
inductive GimpAutoShrink where
  | GIMP_AUTO_SHRINK_SHRINK
  | GIMP_AUTO_SHRINK_EMPTY
  | GIMP_AUTO_SHRINK_UNSHRINKABLE
  deriving DecidableEq, Repr

/-- Layer modes, the C enum `GimpLayerModeEffects` of `core/core-enums.h`:
the twenty-five modes listed in `layer_modes` below and the six modes of the
enum that the table leaves out. -/
inductive GimpLayerModeEffects where
  | GIMP_NORMAL_MODE
  | GIMP_DISSOLVE_MODE
  | GIMP_BEHIND_MODE
  | GIMP_MULTIPLY_MODE
  | GIMP_SCREEN_MODE
  | GIMP_OVERLAY_MODE
  | GIMP_DIFFERENCE_MODE
  | GIMP_ADDITION_MODE
  | GIMP_SUBTRACT_MODE
  | GIMP_DARKEN_ONLY_MODE
  | GIMP_LIGHTEN_ONLY_MODE
  | GIMP_HUE_MODE
  | GIMP_SATURATION_MODE
  | GIMP_COLOR_MODE
  | GIMP_VALUE_MODE
  | GIMP_DIVIDE_MODE
  | GIMP_DODGE_MODE
  | GIMP_BURN_MODE
  | GIMP_HARDLIGHT_MODE
  | GIMP_SOFTLIGHT_MODE
  | GIMP_GRAIN_EXTRACT_MODE
  | GIMP_GRAIN_MERGE_MODE
  | GIMP_COLOR_ERASE_MODE
  | GIMP_ERASE_MODE
  | GIMP_REPLACE_MODE
  | GIMP_ANTI_ERASE_MODE
  | GIMP_NEW_OVERLAY_MODE
  | GIMP_LCH_HUE_MODE
  | GIMP_LCH_CHROMA_MODE
  | GIMP_LCH_COLOR_MODE
  | GIMP_LCH_LIGHTNESS_MODE
  deriving DecidableEq, Repr

/-- Fill types (`GimpFillType`), only passed through. -/
structure GimpFillType where
  value : Int
  deriving DecidableEq, Repr

/-- The C enum `GimpAddMaskType`: the file tests for `GIMP_ADD_MASK_CHANNEL`
only. -/
inductive GimpAddMaskType where
  | GIMP_ADD_MASK_CHANNEL
  | other (n : Nat)
  deriving DecidableEq, Repr

/-- An image, identified by `id`, with the size the getters report. -/
structure GimpImage where
  id : Nat
  width : Int
  height : Int
  deriving DecidableEq, Repr

/-- A display (`GimpDisplay`), with the unit of its shell. -/
structure GimpDisplay where
  id : Nat
  shell_unit : GimpUnit
  deriving DecidableEq, Repr

/-- A context (`GimpContext`), only passed through. -/
structure GimpContext where
  id : Nat
  deriving DecidableEq, Repr

/-- Widgets the callbacks handle: widgets that exist before the call (the
action's widget, a dialog) are named by an identifier; `new_dialog` is the
dialog a `*_dialog_new` constructor returns during the call and
`progress_dialog` the widget `gimp_progress_dialog_new` returns during the
call. -/
inductive GtkWidget where
  | widget (id : Nat)
  | new_dialog
  | progress_dialog
  deriving DecidableEq, Repr

/-- Objects implementing the `GimpProgress` interface. -/
inductive GimpProgress where
  | display (d : GimpDisplay)
  | progress_dialog
  deriving DecidableEq, Repr

/-- Pointer arguments to core objects: objects that exist before the call are
named by an identifier, the `new_*` values are the object the callback obtained
from the constructor call it made just before. -/
inductive Obj where
  | image (id : Nat)
  | layer (id : Nat)
  | layer_mask (id : Nat)
  | channel (id : Nat)
  | vectors (id : Nat)
  | active_parent
  | new_layer
  | new_mask
  | new_vectors
  deriving DecidableEq, Repr

/-- Snapshot of a `GimpItem` as the getters of the item report it when the
callback starts. -/
structure GimpItem where
  id : Nat
  image : GimpImage
  width : Int
  height : Int
  offset_x : Int
  offset_y : Int
  deriving DecidableEq, Repr

/-- Snapshot of a layer: the item part and what the layer getters used by the
file report.  `is_text_layer` is `gimp_item_is_text_layer`, `type_text_layer`
the type check `GIMP_IS_TEXT_LAYER`. -/
structure GimpLayer extends GimpItem where
  name : String
  opacity : gdouble
  mode : GimpLayerModeEffects
  mask : Option Nat
  parent : Option Nat
  is_floating_sel : Bool
  is_text_layer : Bool
  type_text_layer : Bool
  text : Nat
  has_alpha : Bool
  lock_alpha : Bool
  deriving DecidableEq, Repr

/-- The dialogs the file attaches to objects, one per `*_DIALOG_KEY`. -/
inductive DialogKey where
  | EDIT_DIALOG_KEY
  | NEW_DIALOG_KEY
  | RESIZE_DIALOG_KEY
  | SCALE_DIALOG_KEY
  | ADD_MASK_DIALOG_KEY
  deriving DecidableEq, Repr

/-- The private dialog callbacks, as passed to the dialog constructors. -/
inductive DialogCallback where
  | layers_new_callback
  | layers_edit_attributes_callback
  | layers_add_mask_callback
  | layers_scale_callback
  | layers_resize_callback
  deriving DecidableEq, Repr

/-! ## Statics, log and state -/

/-- The private variables of the file. -/
structure Statics where
  layer_resize_unit : GimpUnit
  layer_scale_unit : GimpUnit
  layer_scale_interp : GimpInterpolationType
  deriving DecidableEq, Repr

/-- Initial values of the private variables. -/
def Statics.initial : Statics :=
  { layer_resize_unit := GimpUnit.GIMP_UNIT_PIXEL
    layer_scale_unit := GimpUnit.GIMP_UNIT_PIXEL
    layer_scale_interp := -1 }

/-- A call into a collaborator, with the arguments the file passes. -/
inductive Call where
  | g_warning (text : String)
  | gimp_message_literal (handler : GtkWidget) (severity : GimpMessageSeverity)
      (text : String)
  | g_clear_error
  | g_object_unref (o : Obj)
  | gtk_widget_destroy (w : GtkWidget)
  | gtk_window_present (w : GtkWidget)
  | dialogs_attach_dialog (o : Obj) (key : DialogKey) (dialog : GtkWidget)
  | layer_options_dialog_new (image : GimpImage) (layer : Option Nat)
      (context : GimpContext) (parent : GtkWidget) (title role : String)
      (layer_name : String) (fill : GimpFillType) (callback : DialogCallback)
  | resize_dialog_new (viewable : Nat) (context : GimpContext) (title role : String)
      (parent : GtkWidget) (unit : GimpUnit) (callback : DialogCallback)
  | scale_dialog_new (viewable : Nat) (context : GimpContext) (title role : String)
      (parent : GtkWidget) (unit : GimpUnit) (interpolation : GimpInterpolationType)
      (callback : DialogCallback) (user_data : Option GimpDisplay)
  | layer_add_mask_dialog_new (layer : Nat) (context : GimpContext)
      (parent : GtkWidget) (add_mask_type : GimpAddMaskType) (invert : Bool)
      (callback : DialogCallback)
  | gimp_image_undo_group_start (image : GimpImage) (kind : GimpUndoType)
      (name : String)
  | gimp_image_undo_group_end (image : GimpImage)
  | gimp_item_resize (item : Nat) (context : GimpContext)
      (width height offset_x offset_y : Int)
  | gimp_item_scale_by_origin (item : Nat) (width height : Int)
      (interpolation : GimpInterpolationType) (progress : Option GimpProgress)
      (clip : Bool)
  | gimp_progress_dialog_new
  | gimp_progress_start (progress : GimpProgress) (cancelable : Bool) (text : String)
  | gimp_progress_end (progress : GimpProgress)
  | gimp_image_flush (image : GimpImage)
  | floating_sel_to_layer (fs : Nat)
  | floating_sel_anchor (layer : Nat)
  | gimp_layer_new (image : GimpImage) (width height : Int) (name : String)
      (opacity : gdouble) (mode : GimpLayerModeEffects)
  | gimp_layer_new_from_gegl_buffer (image : GimpImage) (name : String)
      (opacity : gdouble) (mode : GimpLayerModeEffects)
  | gimp_group_layer_new (image : GimpImage)
  | gimp_pickable_flush (image : GimpImage)
  | gimp_drawable_fill (drawable : Obj) (context : GimpContext) (fill : GimpFillType)
  | gimp_item_translate (item : Obj) (x y : Int) (push_undo : Bool)
  | gimp_item_set_visible (item : Obj) (visible push_undo : Bool)
  | gimp_item_duplicate (item : Nat)
  | gimp_item_rename (item : Nat) (name : String)
  | gimp_item_to_selection (item : Obj) (op : Int) (antialias feather : Bool)
  | gimp_image_add_layer (image : GimpImage) (layer : Obj) (parent : Option Obj)
      (position : Int) (push_undo : Bool)
  | gimp_image_add_vectors (image : GimpImage) (vectors : Obj) (parent : Option Obj)
      (position : Int) (push_undo : Bool)
  | gimp_image_set_active_layer (image : GimpImage) (layer : Nat)
  | gimp_image_raise_item (image : GimpImage) (item : Nat)
  | gimp_image_raise_item_to_top (image : GimpImage) (item : Nat)
  | gimp_image_lower_item (image : GimpImage) (item : Nat)
  | gimp_image_lower_item_to_bottom (image : GimpImage) (item : Nat)
  | gimp_image_merge_down (image : GimpImage) (layer : Nat) (context : GimpContext)
  | gimp_image_merge_group_layer (image : GimpImage) (layer : Nat)
  | gimp_image_remove_layer (image : GimpImage) (layer : Nat) (push_undo : Bool)
  | gimp_text_layer_discard (layer : Nat)
  | gimp_text_vectors_new (image : GimpImage) (text : Nat)
  | gimp_vectors_warp_vectors (vectors : Nat) (warped : Obj) (y_offset : gdouble)
  | gimp_layer_resize_to_image (layer : Nat) (context : GimpContext)
  | gimp_layer_create_mask (layer : Nat) (add_mask_type : GimpAddMaskType)
      (channel : Option Nat)
  | gimp_channel_invert (channel : Obj) (push_undo : Bool)
  | gimp_layer_add_mask (layer : Nat) (mask : Obj) (push_undo : Bool)
      (with_error : Bool)
  | gimp_layer_apply_mask (layer : Nat) (mode : Int) (push_undo : Bool)
  | gimp_layer_set_edit_mask (layer : Nat) (edit : Bool)
  | gimp_layer_set_show_mask (layer : Nat) (show_mask push_undo : Bool)
  | gimp_layer_set_apply_mask (layer : Nat) (apply push_undo : Bool)
  | gimp_layer_add_alpha (layer : Nat)
  | gimp_layer_remove_alpha (layer : Nat) (context : GimpContext)
  | gimp_layer_set_opacity (layer : Nat) (opacity : gdouble) (push_undo : Bool)
  | gimp_layer_set_mode (layer : Nat) (mode : GimpLayerModeEffects) (push_undo : Bool)
  | gimp_layer_set_lock_alpha (layer : Nat) (lock_alpha push_undo : Bool)
  | g_object_set_layer_new (layer_name : String) (fill : GimpFillType)
  | g_object_set_layer_add_mask (add_mask_type : GimpAddMaskType) (invert : Bool)
  | g_object_set_auto_rename (layer : Nat) (auto_rename : Bool)
  | gimp_context_set_tool (context : GimpContext)
  | gimp_text_tool_set_layer (layer : Nat)
  deriving Repr

/-- State threaded through a callback. -/
structure St where
  statics : Statics
  log : List (Statics × Call)
  deriving Repr

/-- State at the start of a callback: given statics, nothing called yet. -/
def St.start (g : Statics) : St := { statics := g, log := [] }

/-- Perform a collaborator call: append it to the log together with the
statics at that moment. -/
def St.call (s : St) (c : Call) : St :=
  { s with log := s.log ++ [(s.statics, c)] }

/-- The calls made, in order. -/
def St.calls (s : St) : List Call := s.log.map Prod.snd

/-! ## What `action` and `data` resolve to, and the answers of the core -/

/-- A path (`GimpVectors`). -/
structure GimpVectors where
  id : Nat
  deriving DecidableEq, Repr

/-- An undo step returned by `gimp_image_undo_can_compress`; `item` is
`GIMP_ITEM_UNDO (undo)->item`. -/
structure GimpUndo where
  item : Nat
  deriving DecidableEq, Repr

/-- The fields of `GimpDialogConfig` the file reads. -/
structure GimpDialogConfig where
  layer_new_name : String
  layer_new_fill_type : GimpFillType
  layer_add_mask_type : GimpAddMaskType
  layer_add_mask_invert : Bool
  deriving DecidableEq, Repr

/-- Result of `gimp_item_bounds`: the returned flag and the four values
written through the pointer arguments. -/
structure ItemBounds where
  nonempty : Bool
  x : Int
  y : Int
  width : Int
  height : Int
  deriving DecidableEq, Repr

/-- Result of `gimp_pickable_auto_shrink`: the returned outcome and the four
values written through the pointer arguments. -/
structure AutoShrinkResult where
  result : GimpAutoShrink
  x : Int
  y : Int
  width : Int
  height : Int
  deriving DecidableEq, Repr

/-- The `action` argument: `viewable` is `GIMP_ACTION (action)->viewable` when
it is a layer (`GIMP_IS_LAYER`), `active` is what
`gtk_toggle_action_get_active` reports. -/
structure GtkAction where
  viewable : Option GimpLayer
  active : Bool
  deriving DecidableEq, Repr

/-- Modelled from the spec: the `data` argument as seen through the accessors
and macros of `actions.h` / `actions.c`, which are not among the sources
(`action_data_get_image`, `action_data_get_widget`, `action_data_get_context`,
`action_data_get_display`, `GIMP_IS_IMAGE_WINDOW`): each callback "fetches the
active image/layer from UI context". -/
structure ActionData where
  image : Option GimpImage
  widget : Option GtkWidget
  context : GimpContext
  is_image_window : Bool
  display : Option GimpDisplay
  deriving DecidableEq, Repr

/-- The table `layer_modes`. -/
def layer_modes : List GimpLayerModeEffects :=
  [ GimpLayerModeEffects.GIMP_NORMAL_MODE,
    GimpLayerModeEffects.GIMP_DISSOLVE_MODE,
    GimpLayerModeEffects.GIMP_MULTIPLY_MODE,
    GimpLayerModeEffects.GIMP_DIVIDE_MODE,
    GimpLayerModeEffects.GIMP_SCREEN_MODE,
    GimpLayerModeEffects.GIMP_NEW_OVERLAY_MODE,
    GimpLayerModeEffects.GIMP_DODGE_MODE,
    GimpLayerModeEffects.GIMP_BURN_MODE,
    GimpLayerModeEffects.GIMP_HARDLIGHT_MODE,
    GimpLayerModeEffects.GIMP_SOFTLIGHT_MODE,
    GimpLayerModeEffects.GIMP_GRAIN_EXTRACT_MODE,
    GimpLayerModeEffects.GIMP_GRAIN_MERGE_MODE,
    GimpLayerModeEffects.GIMP_DIFFERENCE_MODE,
    GimpLayerModeEffects.GIMP_ADDITION_MODE,
    GimpLayerModeEffects.GIMP_SUBTRACT_MODE,
    GimpLayerModeEffects.GIMP_DARKEN_ONLY_MODE,
    GimpLayerModeEffects.GIMP_LIGHTEN_ONLY_MODE,
    GimpLayerModeEffects.GIMP_HUE_MODE,
    GimpLayerModeEffects.GIMP_SATURATION_MODE,
    GimpLayerModeEffects.GIMP_COLOR_MODE,
    GimpLayerModeEffects.GIMP_VALUE_MODE,
    GimpLayerModeEffects.GIMP_LCH_HUE_MODE,
    GimpLayerModeEffects.GIMP_LCH_CHROMA_MODE,
    GimpLayerModeEffects.GIMP_LCH_COLOR_MODE,
    GimpLayerModeEffects.GIMP_LCH_LIGHTNESS_MODE ]

/-- Number of entries of `layer_modes` (`G_N_ELEMENTS (layer_modes)`). -/
def layer_modes_n : Nat := layer_modes.length

/-- Answers of the collaborators to the queries a callback makes while it
runs.  A query the file repeats without an intervening call (for instance
`gimp_image_get_floating_selection` in a callback and in the callback it
delegates to) gets the same answer. -/
structure Answers where
  /-- Answer of `gimp_image_get_active_layer (image)`. -/
  active_layer : Option GimpLayer
  /-- Answer of `gimp_image_get_active_vectors (image)`. -/
  active_vectors : Option GimpVectors
  /-- Answer of `gimp_image_get_floating_selection (image)`. -/
  floating_sel : Option Nat
  /-- Outcome of `floating_sel_to_layer`: `none` when it returns TRUE, else the
  message of the error it sets. -/
  floating_sel_to_layer_error : Option String
  /-- Answer of `dialogs_get_dialog (object, key)`. -/
  attached_dialog : DialogKey → Option GtkWidget
  /-- The object `GIMP_DIALOG_CONFIG (image->gimp->config)`. -/
  config : GimpDialogConfig
  /-- The value `image->gimp->config->interpolation_type`. -/
  interpolation_type : GimpInterpolationType
  /-- Answer of `action_select_object (value, container, layer)`. -/
  action_select_object : Int → Option Nat
  /-- Answer of `action_select_value` as called for the opacity: select type
  and current value to the new value. -/
  action_select_opacity : Int → gdouble → gdouble
  /-- Answer of `action_select_value` as called for the mode, with bounds `0`
  and `G_N_ELEMENTS (layer_modes) - 1`: select type and current index to the
  new index, which lies within the bounds passed. -/
  action_select_mode : Int → Nat → Fin layer_modes_n
  /-- Answer of `gimp_item_bounds` for the selection mask of the image. -/
  selection_bounds : ItemBounds
  /-- Answer of `gimp_pickable_auto_shrink (layer, x, y, width, height, ...)`. -/
  auto_shrink : Int → Int → Int → Int → AutoShrinkResult
  /-- Answer of `gimp_image_get_active_channel (image)`. -/
  active_channel : Option Nat
  /-- First child of `gimp_image_get_channels (image)`. -/
  first_channel : Option Nat
  /-- Answer of `gimp_image_undo_can_compress (image, GIMP_TYPE_ITEM_UNDO, kind)`. -/
  undo_can_compress : GimpUndoType → Option GimpUndo
  /-- Whether `GIMP_IS_TEXT_TOOL (tool_manager_get_active (gimp))` when the
  callback starts. -/
  active_tool_is_text_tool : Bool
  /-- Whether `GIMP_IS_TOOL_INFO (gimp_get_tool_info (gimp, "gimp-text-tool"))`. -/
  text_tool_info : Bool
  /-- Whether `GIMP_IS_TEXT_TOOL (tool_manager_get_active (gimp))` after
  `gimp_context_set_tool`. -/
  active_tool_is_text_tool_after_set : Bool

/-! ## `layers_mode_index` -/

/-- The loop of `layers_mode_index` started at `i`; the first argument bounds
the number of iterations. -/
def layers_mode_index_loop (layer_mode : GimpLayerModeEffects) : Nat → Nat → Nat
  | 0, i => i
  | fuel + 1, i =>
    if i < layer_modes_n - 1 ∧ layer_modes.get? i ≠ some layer_mode then
      layers_mode_index_loop layer_mode fuel (i + 1)
    else
      i

/-- `layers_mode_index`. -/
def layers_mode_index (layer_mode : GimpLayerModeEffects) : Nat :=
  layers_mode_index_loop layer_mode layer_modes_n 0

/-! ## The dialog commit callbacks for scale and resize -/

/-- `layers_scale_callback`.  `dialog` identifies the dialog that commits, a
widget that exists before the call; `user_data` is the display bound when the
dialog was made (or `NULL`); `started` is what `gimp_progress_start` returns. -/
def layers_scale_callback (dialog : Nat) (viewable : GimpItem)
    (width height : Int) (unit : GimpUnit) (interpolation : GimpInterpolationType)
    (user_data : Option GimpDisplay) (started : Option GimpProgress) (s : St) : St :=
  let display := user_data
  let s := { s with statics := { s.statics with layer_scale_unit := unit } }
  let s := { s with statics := { s.statics with layer_scale_interp := interpolation } }
  if 0 < width ∧ 0 < height then
    let item := viewable
    let s := s.call (Call.gtk_widget_destroy (GtkWidget.widget dialog))
    if width = item.width ∧ height = item.height then
      s
    else
      -- progress surface: the display when bound, else a new progress dialog
      let progress_dialog : Option GtkWidget :=
        match display with
        | some _ => none
        | none => some GtkWidget.progress_dialog
      let progress : GimpProgress :=
        match display with
        | some d => GimpProgress.display d
        | none => GimpProgress.progress_dialog
      let s := match display with
        | some _ => s
        | none => s.call Call.gimp_progress_dialog_new
      let s := s.call (Call.gimp_progress_start progress false "Scaling")
      let progress := started
      let s := s.call (Call.gimp_item_scale_by_origin item.id width height
                        interpolation progress true)
      let s := match progress with
        | some p => s.call (Call.gimp_progress_end p)
        | none => s
      let s := match progress_dialog with
        | some w => s.call (Call.gtk_widget_destroy w)
        | none => s
      s.call (Call.gimp_image_flush item.image)
  else
    s.call (Call.g_warning
      "Scale Error: Both width and height must be greater than zero.")

/-- `layers_resize_callback`. -/
def layers_resize_callback (dialog : Nat) (viewable : GimpItem)
    (context : GimpContext) (width height : Int) (unit : GimpUnit)
    (offset_x offset_y : Int) (s : St) : St :=
  let s := { s with statics := { s.statics with layer_resize_unit := unit } }
  if 0 < width ∧ 0 < height then
    let item := viewable
    let s := s.call (Call.gtk_widget_destroy (GtkWidget.widget dialog))
    if width = item.width ∧ height = item.height then
      s
    else
      let s := s.call (Call.gimp_item_resize item.id context
                        width height offset_x offset_y)
      s.call (Call.gimp_image_flush item.image)
  else
    s.call (Call.g_warning
      "Resize Error: Both width and height must be greater than zero.")

/-! ## The command callbacks

The macros `return_if_no_image`, `return_if_no_layer`, `return_if_no_widget`
and `return_if_no_vectors` of `actions.h` fetch the image, its active layer,
the widget and the active path, and return from the callback when the fetched
pointer is `NULL`. -/

/-- `layers_edit_attributes_cmd_callback`. -/
def layers_edit_attributes_cmd_callback (_action : GtkAction) (data : ActionData)
    (a : Answers) (s : St) : St :=
  match data.image with
  | none => s
  | some _image =>
  match a.active_layer with
  | none => s
  | some layer =>
  match data.widget with
  | none => s
  | some widget =>
    let dialog := a.attached_dialog DialogKey.EDIT_DIALOG_KEY
    let s := match dialog with
      | some _ => s
      | none =>
        let s := s.call (Call.layer_options_dialog_new layer.image (some layer.id)
                          data.context widget "Layer Attributes" "gimp-layer-edit"
                          layer.name ⟨0⟩ DialogCallback.layers_edit_attributes_callback)
        s.call (Call.dialogs_attach_dialog (Obj.layer layer.id)
                  DialogKey.EDIT_DIALOG_KEY GtkWidget.new_dialog)
    let dialog := dialog.getD GtkWidget.new_dialog
    s.call (Call.gtk_window_present dialog)

/-- `layers_text_tool_cmd_callback`. -/
def layers_text_tool_cmd_callback (action : GtkAction) (data : ActionData)
    (a : Answers) (s : St) : St :=
  match data.image with
  | none => s
  | some _image =>
  match a.active_layer with
  | none => s
  | some layer =>
  match data.widget with
  | none => s
  | some _widget =>
    if ! layer.is_text_layer then
      layers_edit_attributes_cmd_callback action data a s
    else
      let set_tool : Bool := ! a.active_tool_is_text_tool && a.text_tool_info
      let s := if set_tool then s.call (Call.gimp_context_set_tool data.context) else s
      let active_is_text_tool : Bool :=
        if set_tool then a.active_tool_is_text_tool_after_set
        else a.active_tool_is_text_tool
      if active_is_text_tool then
        s.call (Call.gimp_text_tool_set_layer layer.id)
      else s

/-- `layers_new_cmd_callback`. -/
def layers_new_cmd_callback (_action : GtkAction) (data : ActionData)
    (a : Answers) (s : St) : St :=
  match data.image with
  | none => s
  | some image =>
  match data.widget with
  | none => s
  | some widget =>
  match a.floating_sel with
  | some floating_sel =>
    let s := s.call (Call.floating_sel_to_layer floating_sel)
    match a.floating_sel_to_layer_error with
    | some message =>
      let s := s.call (Call.gimp_message_literal widget
                        GimpMessageSeverity.GIMP_MESSAGE_WARNING message)
      s.call Call.g_clear_error
    | none =>
      s.call (Call.gimp_image_flush image)
  | none =>
    let dialog := a.attached_dialog DialogKey.NEW_DIALOG_KEY
    let s := match dialog with
      | some _ => s
      | none =>
        let config := a.config
        let s := s.call (Call.layer_options_dialog_new image none
                          data.context widget "New Layer" "gimp-layer-new"
                          config.layer_new_name config.layer_new_fill_type
                          DialogCallback.layers_new_callback)
        s.call (Call.dialogs_attach_dialog (Obj.image image.id)
                  DialogKey.NEW_DIALOG_KEY GtkWidget.new_dialog)
    let dialog := dialog.getD GtkWidget.new_dialog
    s.call (Call.gtk_window_present dialog)

/-- `layers_new_last_vals_cmd_callback`. -/
def layers_new_last_vals_cmd_callback (action : GtkAction) (data : ActionData)
    (a : Answers) (s : St) : St :=
  match data.image with
  | none => s
  | some image =>
  match data.widget with
  | none => s
  | some _widget =>
    let config := a.config
    match a.floating_sel with
    | some _ => layers_new_cmd_callback action data a s
    | none =>
      let width := match action.viewable with
        | some template => template.width
        | none => image.width
      let height := match action.viewable with
        | some template => template.height
        | none => image.height
      let off_x := match action.viewable with
        | some template => template.offset_x
        | none => 0
      let off_y := match action.viewable with
        | some template => template.offset_y
        | none => 0
      let opacity : gdouble := match action.viewable with
        | some template => template.opacity
        | none => 1
      let mode := match action.viewable with
        | some template => template.mode
        | none => GimpLayerModeEffects.GIMP_NORMAL_MODE
      let s := s.call (Call.gimp_image_undo_group_start image
                        GimpUndoType.GIMP_UNDO_GROUP_EDIT_PASTE "New Layer")
      let s := s.call (Call.gimp_layer_new image width height
                        config.layer_new_name opacity mode)
      let s := s.call (Call.gimp_drawable_fill Obj.new_layer data.context
                        config.layer_new_fill_type)
      let s := s.call (Call.gimp_item_translate Obj.new_layer off_x off_y false)
      let s := s.call (Call.gimp_image_add_layer image Obj.new_layer
                        (some Obj.active_parent) (-1) true)
      let s := s.call (Call.gimp_image_undo_group_end image)
      s.call (Call.gimp_image_flush image)

/-- `layers_new_from_visible_cmd_callback`. -/
def layers_new_from_visible_cmd_callback (_action : GtkAction) (data : ActionData)
    (_a : Answers) (s : St) : St :=
  match data.image with
  | none => s
  | some image =>
    let s := s.call (Call.gimp_pickable_flush image)
    let s := s.call (Call.gimp_layer_new_from_gegl_buffer image "Visible" 1
                      GimpLayerModeEffects.GIMP_NORMAL_MODE)
    let s := s.call (Call.gimp_image_add_layer image Obj.new_layer
                      (some Obj.active_parent) (-1) true)
    s.call (Call.gimp_image_flush image)

/-- `layers_new_group_cmd_callback`. -/
def layers_new_group_cmd_callback (_action : GtkAction) (data : ActionData)
    (_a : Answers) (s : St) : St :=
  match data.image with
  | none => s
  | some image =>
    let s := s.call (Call.gimp_group_layer_new image)
    let s := s.call (Call.gimp_image_add_layer image Obj.new_layer
                      (some Obj.active_parent) (-1) true)
    s.call (Call.gimp_image_flush image)

/-- `layers_select_cmd_callback`. -/
def layers_select_cmd_callback (_action : GtkAction) (value : Int)
    (data : ActionData) (a : Answers) (s : St) : St :=
  match data.image with
  | none => s
  | some image =>
    let layer := a.active_layer
    let new_layer := a.action_select_object value
    match new_layer with
    | none => s
    | some n =>
      if some n ≠ layer.map (fun l => l.id) then
        let s := s.call (Call.gimp_image_set_active_layer image n)
        s.call (Call.gimp_image_flush image)
      else s

/-- `layers_raise_cmd_callback`. -/
def layers_raise_cmd_callback (_action : GtkAction) (data : ActionData)
    (a : Answers) (s : St) : St :=
  match data.image with
  | none => s
  | some image =>
  match a.active_layer with
  | none => s
  | some layer =>
    let s := s.call (Call.gimp_image_raise_item image layer.id)
    s.call (Call.gimp_image_flush image)

/-- `layers_raise_to_top_cmd_callback`. -/
def layers_raise_to_top_cmd_callback (_action : GtkAction) (data : ActionData)
    (a : Answers) (s : St) : St :=
  match data.image with
  | none => s
  | some image =>
  match a.active_layer with
  | none => s
  | some layer =>
    let s := s.call (Call.gimp_image_raise_item_to_top image layer.id)
    s.call (Call.gimp_image_flush image)

/-- `layers_lower_cmd_callback`. -/
def layers_lower_cmd_callback (_action : GtkAction) (data : ActionData)
    (a : Answers) (s : St) : St :=
  match data.image with
  | none => s
  | some image =>
  match a.active_layer with
  | none => s
  | some layer =>
    let s := s.call (Call.gimp_image_lower_item image layer.id)
    s.call (Call.gimp_image_flush image)

/-- `layers_lower_to_bottom_cmd_callback`. -/
def layers_lower_to_bottom_cmd_callback (_action : GtkAction) (data : ActionData)
    (a : Answers) (s : St) : St :=
  match data.image with
  | none => s
  | some image =>
  match a.active_layer with
  | none => s
  | some layer =>
    let s := s.call (Call.gimp_image_lower_item_to_bottom image layer.id)
    s.call (Call.gimp_image_flush image)

/-- `layers_duplicate_cmd_callback`. -/
def layers_duplicate_cmd_callback (_action : GtkAction) (data : ActionData)
    (a : Answers) (s : St) : St :=
  match data.image with
  | none => s
  | some image =>
  match a.active_layer with
  | none => s
  | some layer =>
    let s := s.call (Call.gimp_item_duplicate layer.id)
    let s := s.call (Call.gimp_image_add_layer image Obj.new_layer
                      (layer.parent.map Obj.layer) (-1) true)
    s.call (Call.gimp_image_flush image)

/-- `layers_anchor_cmd_callback`. -/
def layers_anchor_cmd_callback (_action : GtkAction) (data : ActionData)
    (a : Answers) (s : St) : St :=
  match data.image with
  | none => s
  | some image =>
  match a.active_layer with
  | none => s
  | some layer =>
    if layer.is_floating_sel then
      let s := s.call (Call.floating_sel_anchor layer.id)
      s.call (Call.gimp_image_flush image)
    else s

/-- `layers_merge_down_cmd_callback`. -/
def layers_merge_down_cmd_callback (_action : GtkAction) (data : ActionData)
    (a : Answers) (s : St) : St :=
  match data.image with
  | none => s
  | some image =>
  match a.active_layer with
  | none => s
  | some layer =>
    let s := s.call (Call.gimp_image_merge_down image layer.id data.context)
    s.call (Call.gimp_image_flush image)

/-- `layers_merge_group_cmd_callback`. -/
def layers_merge_group_cmd_callback (_action : GtkAction) (data : ActionData)
    (a : Answers) (s : St) : St :=
  match data.image with
  | none => s
  | some image =>
  match a.active_layer with
  | none => s
  | some layer =>
    let s := s.call (Call.gimp_image_merge_group_layer image layer.id)
    s.call (Call.gimp_image_flush image)

/-- `layers_delete_cmd_callback`. -/
def layers_delete_cmd_callback (_action : GtkAction) (data : ActionData)
    (a : Answers) (s : St) : St :=
  match data.image with
  | none => s
  | some image =>
  match a.active_layer with
  | none => s
  | some layer =>
    let s := s.call (Call.gimp_image_remove_layer image layer.id true)
    s.call (Call.gimp_image_flush image)

/-- `layers_text_discard_cmd_callback`. -/
def layers_text_discard_cmd_callback (_action : GtkAction) (data : ActionData)
    (a : Answers) (s : St) : St :=
  match data.image with
  | none => s
  | some _image =>
  match a.active_layer with
  | none => s
  | some layer =>
    if layer.type_text_layer then
      s.call (Call.gimp_text_layer_discard layer.id)
    else s

/-- `layers_text_to_vectors_cmd_callback`. -/
def layers_text_to_vectors_cmd_callback (_action : GtkAction) (data : ActionData)
    (a : Answers) (s : St) : St :=
  match data.image with
  | none => s
  | some image =>
  match a.active_layer with
  | none => s
  | some layer =>
    if layer.type_text_layer then
      let s := s.call (Call.gimp_text_vectors_new image layer.text)
      let x := layer.offset_x
      let y := layer.offset_y
      let s := s.call (Call.gimp_item_translate Obj.new_vectors x y false)
      let s := s.call (Call.gimp_image_add_vectors image Obj.new_vectors
                        (some Obj.active_parent) (-1) true)
      s.call (Call.gimp_image_flush image)
    else s

/-- `layers_text_along_vectors_cmd_callback`. -/
def layers_text_along_vectors_cmd_callback (_action : GtkAction) (data : ActionData)
    (a : Answers) (s : St) : St :=
  match data.image with
  | none => s
  | some image =>
  match a.active_layer with
  | none => s
  | some layer =>
  match a.active_vectors with
  | none => s
  | some vectors =>
    if layer.type_text_layer then
      let s := s.call (Call.gimp_text_vectors_new image layer.text)
      let s := s.call (Call.gimp_vectors_warp_vectors vectors.id Obj.new_vectors
                        ((1 / 2 : Rat) * (layer.height : Rat)))
      let s := s.call (Call.gimp_item_set_visible Obj.new_vectors true false)
      let s := s.call (Call.gimp_image_add_vectors image Obj.new_vectors
                        (some Obj.active_parent) (-1) true)
      s.call (Call.gimp_image_flush image)
    else s

/-- `layers_resize_cmd_callback`. -/
def layers_resize_cmd_callback (_action : GtkAction) (data : ActionData)
    (a : Answers) (s : St) : St :=
  match data.image with
  | none => s
  | some _image =>
  match a.active_layer with
  | none => s
  | some layer =>
  match data.widget with
  | none => s
  | some widget =>
    let dialog := a.attached_dialog DialogKey.RESIZE_DIALOG_KEY
    let s := match dialog with
      | some _ => s
      | none =>
        let display : Option GimpDisplay :=
          if data.is_image_window then data.display else none
        let s := match display with
          | some d =>
            if s.statics.layer_resize_unit ≠ GimpUnit.GIMP_UNIT_PERCENT then
              { s with statics := { s.statics with layer_resize_unit := d.shell_unit } }
            else s
          | none => s
        let s := s.call (Call.resize_dialog_new layer.id data.context
                          "Set Layer Boundary Size" "gimp-layer-resize" widget
                          s.statics.layer_resize_unit
                          DialogCallback.layers_resize_callback)
        s.call (Call.dialogs_attach_dialog (Obj.layer layer.id)
                  DialogKey.RESIZE_DIALOG_KEY GtkWidget.new_dialog)
    let dialog := dialog.getD GtkWidget.new_dialog
    s.call (Call.gtk_window_present dialog)

/-- `layers_resize_to_image_cmd_callback`. -/
def layers_resize_to_image_cmd_callback (_action : GtkAction) (data : ActionData)
    (a : Answers) (s : St) : St :=
  match data.image with
  | none => s
  | some image =>
  match a.active_layer with
  | none => s
  | some layer =>
    let s := s.call (Call.gimp_layer_resize_to_image layer.id data.context)
    s.call (Call.gimp_image_flush image)

/-- `layers_scale_cmd_callback`. -/
def layers_scale_cmd_callback (_action : GtkAction) (data : ActionData)
    (a : Answers) (s : St) : St :=
  match data.image with
  | none => s
  | some _image =>
  match a.active_layer with
  | none => s
  | some layer =>
  match data.widget with
  | none => s
  | some widget =>
    let dialog := a.attached_dialog DialogKey.SCALE_DIALOG_KEY
    let s := match dialog with
      | some _ => s
      | none =>
        let display : Option GimpDisplay :=
          if data.is_image_window then data.display else none
        let s := match display with
          | some d =>
            if s.statics.layer_scale_unit ≠ GimpUnit.GIMP_UNIT_PERCENT then
              { s with statics := { s.statics with layer_scale_unit := d.shell_unit } }
            else s
          | none => s
        let s :=
          if s.statics.layer_scale_interp = -1 then
            { s with statics :=
                { s.statics with layer_scale_interp := a.interpolation_type } }
          else s
        let s := s.call (Call.scale_dialog_new layer.id data.context
                          "Scale Layer" "gimp-layer-scale" widget
                          s.statics.layer_scale_unit s.statics.layer_scale_interp
                          DialogCallback.layers_scale_callback display)
        s.call (Call.dialogs_attach_dialog (Obj.layer layer.id)
                  DialogKey.SCALE_DIALOG_KEY GtkWidget.new_dialog)
    let dialog := dialog.getD GtkWidget.new_dialog
    s.call (Call.gtk_window_present dialog)

/-- `layers_crop_to_selection_cmd_callback`. -/
def layers_crop_to_selection_cmd_callback (_action : GtkAction) (data : ActionData)
    (a : Answers) (s : St) : St :=
  match data.image with
  | none => s
  | some image =>
  match a.active_layer with
  | none => s
  | some layer =>
  match data.widget with
  | none => s
  | some widget =>
    let b := a.selection_bounds
    if ! b.nonempty then
      s.call (Call.gimp_message_literal widget
                GimpMessageSeverity.GIMP_MESSAGE_WARNING
                "Cannot crop because the current selection is empty.")
    else
      let off_x := layer.offset_x
      let off_y := layer.offset_y
      let off_x := gint_sub off_x b.x
      let off_y := gint_sub off_y b.y
      let s := s.call (Call.gimp_image_undo_group_start image
                        GimpUndoType.GIMP_UNDO_GROUP_ITEM_RESIZE
                        "Crop Layer to Selection")
      let s := s.call (Call.gimp_item_resize layer.id data.context
                        b.width b.height off_x off_y)
      let s := s.call (Call.gimp_image_undo_group_end image)
      s.call (Call.gimp_image_flush image)

/-- `layers_crop_to_content_cmd_callback`. -/
def layers_crop_to_content_cmd_callback (_action : GtkAction) (data : ActionData)
    (a : Answers) (s : St) : St :=
  match data.image with
  | none => s
  | some image =>
  match a.active_layer with
  | none => s
  | some layer =>
  match data.widget with
  | none => s
  | some widget =>
    let r := a.auto_shrink 0 0 layer.width layer.height
    match r.result with
    | GimpAutoShrink.GIMP_AUTO_SHRINK_SHRINK =>
      let s := s.call (Call.gimp_image_undo_group_start image
                        GimpUndoType.GIMP_UNDO_GROUP_ITEM_RESIZE
                        "Crop Layer to Content")
      let s := s.call (Call.gimp_item_resize layer.id data.context
                        r.width r.height (-r.x) (-r.y))
      let s := s.call (Call.gimp_image_undo_group_end image)
      s.call (Call.gimp_image_flush image)
    | GimpAutoShrink.GIMP_AUTO_SHRINK_EMPTY =>
      s.call (Call.gimp_message_literal widget
                GimpMessageSeverity.GIMP_MESSAGE_INFO
                "Cannot crop because the active layer has no content.")
    | GimpAutoShrink.GIMP_AUTO_SHRINK_UNSHRINKABLE =>
      s.call (Call.gimp_message_literal widget
                GimpMessageSeverity.GIMP_MESSAGE_INFO
                "Cannot crop because the active layer is already cropped to its content.")

/-- `layers_mask_add_cmd_callback`. -/
def layers_mask_add_cmd_callback (_action : GtkAction) (data : ActionData)
    (a : Answers) (s : St) : St :=
  match data.image with
  | none => s
  | some _image =>
  match a.active_layer with
  | none => s
  | some layer =>
  match data.widget with
  | none => s
  | some widget =>
    if layer.mask.isSome then s
    else
      let dialog := a.attached_dialog DialogKey.ADD_MASK_DIALOG_KEY
      let s := match dialog with
        | some _ => s
        | none =>
          let config := a.config
          let s := s.call (Call.layer_add_mask_dialog_new layer.id data.context
                            widget config.layer_add_mask_type
                            config.layer_add_mask_invert
                            DialogCallback.layers_add_mask_callback)
          s.call (Call.dialogs_attach_dialog (Obj.layer layer.id)
                    DialogKey.ADD_MASK_DIALOG_KEY GtkWidget.new_dialog)
      let dialog := dialog.getD GtkWidget.new_dialog
      s.call (Call.gtk_window_present dialog)

/-- `layers_mask_add_last_vals_cmd_callback`. -/
def layers_mask_add_last_vals_cmd_callback (action : GtkAction) (data : ActionData)
    (a : Answers) (s : St) : St :=
  match data.image with
  | none => s
  | some image =>
  match a.active_layer with
  | none => s
  | some layer =>
  match data.widget with
  | none => s
  | some _widget =>
    if layer.mask.isSome then s
    else
      let config := a.config
      let channel : Option Nat :=
        if config.layer_add_mask_type = GimpAddMaskType.GIMP_ADD_MASK_CHANNEL then
          match a.active_channel with
          | some c => some c
          | none => a.first_channel
        else none
      if config.layer_add_mask_type = GimpAddMaskType.GIMP_ADD_MASK_CHANNEL
          ∧ channel = none then
        layers_mask_add_cmd_callback action data a s
      else
        let s := s.call (Call.gimp_layer_create_mask layer.id
                          config.layer_add_mask_type channel)
        let s := if config.layer_add_mask_invert then
            s.call (Call.gimp_channel_invert Obj.new_mask false)
          else s
        let s := s.call (Call.gimp_layer_add_mask layer.id Obj.new_mask true false)
        s.call (Call.gimp_image_flush image)

/-- `layers_mask_apply_cmd_callback`. -/
def layers_mask_apply_cmd_callback (_action : GtkAction) (value : Int)
    (data : ActionData) (a : Answers) (s : St) : St :=
  match data.image with
  | none => s
  | some image =>
  match a.active_layer with
  | none => s
  | some layer =>
    if layer.mask.isSome then
      let mode := value
      let s := s.call (Call.gimp_layer_apply_mask layer.id mode true)
      s.call (Call.gimp_image_flush image)
    else s

/-- `layers_mask_edit_cmd_callback`. -/
def layers_mask_edit_cmd_callback (action : GtkAction) (data : ActionData)
    (a : Answers) (s : St) : St :=
  match data.image with
  | none => s
  | some image =>
  match a.active_layer with
  | none => s
  | some layer =>
    if layer.mask.isSome then
      let active := action.active
      let s := s.call (Call.gimp_layer_set_edit_mask layer.id active)
      s.call (Call.gimp_image_flush image)
    else s

/-- `layers_mask_show_cmd_callback`. -/
def layers_mask_show_cmd_callback (action : GtkAction) (data : ActionData)
    (a : Answers) (s : St) : St :=
  match data.image with
  | none => s
  | some image =>
  match a.active_layer with
  | none => s
  | some layer =>
    if layer.mask.isSome then
      let active := action.active
      let s := s.call (Call.gimp_layer_set_show_mask layer.id active true)
      s.call (Call.gimp_image_flush image)
    else s

/-- `layers_mask_disable_cmd_callback`. -/
def layers_mask_disable_cmd_callback (action : GtkAction) (data : ActionData)
    (a : Answers) (s : St) : St :=
  match data.image with
  | none => s
  | some image =>
  match a.active_layer with
  | none => s
  | some layer =>
    if layer.mask.isSome then
      let active := action.active
      let s := s.call (Call.gimp_layer_set_apply_mask layer.id (! active) true)
      s.call (Call.gimp_image_flush image)
    else s

/-- `layers_mask_to_selection_cmd_callback`. -/
def layers_mask_to_selection_cmd_callback (_action : GtkAction) (value : Int)
    (data : ActionData) (a : Answers) (s : St) : St :=
  match data.image with
  | none => s
  | some image =>
  match a.active_layer with
  | none => s
  | some layer =>
    match layer.mask with
    | some mask =>
      let s := s.call (Call.gimp_item_to_selection (Obj.layer_mask mask) value
                        true false)
      s.call (Call.gimp_image_flush image)
    | none => s

/-- `layers_alpha_add_cmd_callback`. -/
def layers_alpha_add_cmd_callback (_action : GtkAction) (data : ActionData)
    (a : Answers) (s : St) : St :=
  match data.image with
  | none => s
  | some image =>
  match a.active_layer with
  | none => s
  | some layer =>
    if ! layer.has_alpha then
      let s := s.call (Call.gimp_layer_add_alpha layer.id)
      s.call (Call.gimp_image_flush image)
    else s

/-- `layers_alpha_remove_cmd_callback`. -/
def layers_alpha_remove_cmd_callback (_action : GtkAction) (data : ActionData)
    (a : Answers) (s : St) : St :=
  match data.image with
  | none => s
  | some image =>
  match a.active_layer with
  | none => s
  | some layer =>
    if layer.has_alpha then
      let s := s.call (Call.gimp_layer_remove_alpha layer.id data.context)
      s.call (Call.gimp_image_flush image)
    else s

/-- `layers_alpha_to_selection_cmd_callback`. -/
def layers_alpha_to_selection_cmd_callback (_action : GtkAction) (value : Int)
    (data : ActionData) (a : Answers) (s : St) : St :=
  match data.image with
  | none => s
  | some image =>
  match a.active_layer with
  | none => s
  | some layer =>
    let s := s.call (Call.gimp_item_to_selection (Obj.layer layer.id) value
                      true false)
    s.call (Call.gimp_image_flush image)

/-- The test `undo && GIMP_ITEM_UNDO (undo)->item == GIMP_ITEM (layer)` shared
by the opacity, mode and lock-alpha callbacks, as the value `push_undo` gets:
initialised to TRUE, set to FALSE when the test holds. -/
def push_undo_for (undo : Option GimpUndo) (layer : GimpLayer) : Bool :=
  match undo with
  | some u => if u.item = layer.id then false else true
  | none => true

/-- `layers_opacity_cmd_callback`. -/
def layers_opacity_cmd_callback (_action : GtkAction) (value : Int)
    (data : ActionData) (a : Answers) (s : St) : St :=
  match data.image with
  | none => s
  | some image =>
  match a.active_layer with
  | none => s
  | some layer =>
    let undo := a.undo_can_compress GimpUndoType.GIMP_UNDO_LAYER_OPACITY
    let push_undo := push_undo_for undo layer
    let opacity := a.action_select_opacity value layer.opacity
    let s := s.call (Call.gimp_layer_set_opacity layer.id opacity push_undo)
    s.call (Call.gimp_image_flush image)

/-- `layers_mode_cmd_callback`. -/
def layers_mode_cmd_callback (_action : GtkAction) (value : Int)
    (data : ActionData) (a : Answers) (s : St) : St :=
  match data.image with
  | none => s
  | some image =>
  match a.active_layer with
  | none => s
  | some layer =>
    let undo := a.undo_can_compress GimpUndoType.GIMP_UNDO_LAYER_MODE
    let push_undo := push_undo_for undo layer
    let layer_mode := layer.mode
    let index := a.action_select_mode value (layers_mode_index layer_mode)
    let s := s.call (Call.gimp_layer_set_mode layer.id (layer_modes.get index)
                      push_undo)
    s.call (Call.gimp_image_flush image)

/-- `layers_lock_alpha_cmd_callback`. -/
def layers_lock_alpha_cmd_callback (action : GtkAction) (data : ActionData)
    (a : Answers) (s : St) : St :=
  match data.image with
  | none => s
  | some image =>
  match a.active_layer with
  | none => s
  | some layer =>
    let lock_alpha := action.active
    if lock_alpha ≠ layer.lock_alpha then
      let undo := a.undo_can_compress GimpUndoType.GIMP_UNDO_LAYER_LOCK_ALPHA
      let push_undo := push_undo_for undo layer
      let s := s.call (Call.gimp_layer_set_lock_alpha layer.id lock_alpha push_undo)
      s.call (Call.gimp_image_flush image)
    else s

/-! ## The remaining dialog commit callbacks -/

/-- `layers_new_callback`.  `allocated` tells whether `gimp_layer_new` returned
a layer.  After `g_object_set` the config holds the name and fill type just
written. -/
def layers_new_callback (dialog : Nat) (image : GimpImage)
    (context : GimpContext) (layer_name : String) (layer_fill_type : GimpFillType)
    (layer_width layer_height : Int) (allocated : Bool) (s : St) : St :=
  let s := s.call (Call.g_object_set_layer_new layer_name layer_fill_type)
  let s := s.call (Call.gimp_layer_new image layer_width layer_height layer_name 1
                    GimpLayerModeEffects.GIMP_NORMAL_MODE)
  let s :=
    if allocated then
      let s := s.call (Call.gimp_drawable_fill Obj.new_layer context layer_fill_type)
      let s := s.call (Call.gimp_image_add_layer image Obj.new_layer
                        (some Obj.active_parent) (-1) true)
      s.call (Call.gimp_image_flush image)
    else
      s.call (Call.g_warning "layers_new_callback: could not allocate new layer")
  s.call (Call.gtk_widget_destroy (GtkWidget.widget dialog))

/-- `layers_edit_attributes_callback`.  `rename_error` is `none` when
`gimp_item_rename` returns TRUE, else the message of the error it sets. -/
def layers_edit_attributes_callback (dialog : Nat) (image : GimpImage)
    (layer : GimpLayer) (layer_name : String) (rename_text_layer : Bool)
    (rename_error : Option String) (s : St) : St :=
  -- the statements after the rename block
  let finish (s : St) : St :=
    let s := if layer.is_text_layer then
        s.call (Call.g_object_set_auto_rename layer.id rename_text_layer)
      else s
    s.call (Call.gtk_widget_destroy (GtkWidget.widget dialog))
  if layer_name ≠ layer.name then
    let s := s.call (Call.gimp_item_rename layer.id layer_name)
    match rename_error with
    | none => finish (s.call (Call.gimp_image_flush image))
    | some message =>
      let s := s.call (Call.gimp_message_literal (GtkWidget.widget dialog)
                        GimpMessageSeverity.GIMP_MESSAGE_WARNING message)
      s.call Call.g_clear_error
  else finish s

/-- `layers_add_mask_callback`.  `add_mask_error` is `none` when
`gimp_layer_add_mask` returns TRUE, else the message of the error it sets.
After `g_object_set` the config holds the mask type and invert flag just
written. -/
def layers_add_mask_callback (dialog : Nat) (layer : GimpLayer)
    (add_mask_type : GimpAddMaskType) (channel : Option Nat) (invert : Bool)
    (add_mask_error : Option String) (s : St) : St :=
  let image := layer.image
  let s := s.call (Call.g_object_set_layer_add_mask add_mask_type invert)
  let s := s.call (Call.gimp_layer_create_mask layer.id add_mask_type channel)
  let s := if invert then s.call (Call.gimp_channel_invert Obj.new_mask false) else s
  let s := s.call (Call.gimp_layer_add_mask layer.id Obj.new_mask true true)
  match add_mask_error with
  | some message =>
    let s := s.call (Call.gimp_message_literal (GtkWidget.widget dialog)
                      GimpMessageSeverity.GIMP_MESSAGE_WARNING message)
    let s := s.call (Call.g_object_unref Obj.new_mask)
    s.call Call.g_clear_error
  | none =>
    let s := s.call (Call.gimp_image_flush image)
    s.call (Call.gtk_widget_destroy (GtkWidget.widget dialog))

/-! ## Reading a log -/

/-- The steps of a geometry command a call can stand for. -/
inductive GeometryStep where
  | undo_open
  | mutation
  | undo_close
  | flush
  deriving DecidableEq, Repr

/-- The geometry step of a call: opening or closing an undo group, the resize
or scale primitive, the flush; no step for every other call. -/
def Call.geometryStep : Call → Option GeometryStep
  | Call.gimp_image_undo_group_start _ _ _ => some GeometryStep.undo_open
  | Call.gimp_item_resize _ _ _ _ _ _ => some GeometryStep.mutation
  | Call.gimp_item_scale_by_origin _ _ _ _ _ _ => some GeometryStep.mutation
  | Call.gimp_image_undo_group_end _ => some GeometryStep.undo_close
  | Call.gimp_image_flush _ => some GeometryStep.flush
  | _ => none

/-- The geometry steps of a list of calls, in order. -/
def geometrySteps (calls : List Call) : List GeometryStep :=
  calls.filterMap Call.geometryStep

/-- The item as the core leaves it after a list of calls, for a core whose
effect on the item is `core`. -/
def item_after (core : GimpItem → Call → GimpItem) (item : GimpItem)
    (calls : List Call) : GimpItem :=
  calls.foldl core item

/-- A core for examples: `gimp_item_resize` and `gimp_item_scale_by_origin` on
the item set its width and height to the requested ones. -/
def example_core (item : GimpItem) : Call → GimpItem
  | Call.gimp_item_resize i _ w h _ _ =>
    if i = item.id then { item with width := w, height := h } else item
  | Call.gimp_item_scale_by_origin i w h _ _ _ =>
    if i = item.id then { item with width := w, height := h } else item
  | _ => item

/-- An image for examples. -/
def example_image : GimpImage := { id := 1, width := 640, height := 480 }

/-- An item of 100 x 100 for examples. -/
def example_item : GimpItem :=
  { id := 7, image := example_image, width := 100, height := 100,
    offset_x := 10, offset_y := 20 }

/-- A layer for examples: the 100 x 100 example item at offset (10, 20),
without mask. -/
def example_layer : GimpLayer :=
  { toGimpItem := example_item, name := "Background", opacity := 1,
    mode := GimpLayerModeEffects.GIMP_NORMAL_MODE, mask := none, parent := none,
    is_floating_sel := false, is_text_layer := false, type_text_layer := false,
    text := 0, has_alpha := true, lock_alpha := false }

/-- Action data for examples: image and widget present, no display. -/
def example_data : ActionData :=
  { image := some example_image, widget := some (GtkWidget.widget 5),
    context := { id := 2 }, is_image_window := false, display := none }

/-- A display for examples, whose shell shows unit 2. -/
def example_display : GimpDisplay := { id := 9, shell_unit := GimpUnit.other 2 }

/-- Action data for examples: as `example_data`, invoked from an image window
with `example_display`. -/
def example_window_data : ActionData :=
  { image := some example_image, widget := some (GtkWidget.widget 5),
    context := { id := 2 }, is_image_window := true,
    display := some example_display }

/-- Answers for examples: the example layer is active, nothing floats, no
dialog is attached, the selection is the rectangle 30 x 40 at (5, 6), and the
content of a rectangle is found two pixels inside of it on every side. -/
def example_answers : Answers :=
  { active_layer := some example_layer
    active_vectors := none
    floating_sel := none
    floating_sel_to_layer_error := none
    attached_dialog := fun _ => none
    config := { layer_new_name := "Layer", layer_new_fill_type := { value := 3 },
                layer_add_mask_type := GimpAddMaskType.other 0,
                layer_add_mask_invert := false }
    interpolation_type := 2
    action_select_object := fun _ => none
    action_select_opacity := fun _ o => o
    action_select_mode := fun _ _ => ⟨0, by decide⟩
    selection_bounds := { nonempty := true, x := 5, y := 6, width := 30, height := 40 }
    auto_shrink := fun x y w h =>
      { result := GimpAutoShrink.GIMP_AUTO_SHRINK_SHRINK,
        x := x + 2, y := y + 2, width := w - 4, height := h - 4 }
    active_channel := none
    first_channel := none
    undo_can_compress := fun _ => none
    active_tool_is_text_tool := false
    text_tool_info := true
    active_tool_is_text_tool_after_set := true }

/-! ## Every callback of the file -/

/-- One invocation of a callback of the file, with its arguments and the
answers it gets: the thirty-seven public command callbacks and the five
private dialog callbacks. -/
inductive Invocation where
  | layers_text_tool_cmd_callback (action : GtkAction) (data : ActionData) (a : Answers)
  | layers_edit_attributes_cmd_callback (action : GtkAction) (data : ActionData) (a : Answers)
  | layers_new_cmd_callback (action : GtkAction) (data : ActionData) (a : Answers)
  | layers_new_last_vals_cmd_callback (action : GtkAction) (data : ActionData) (a : Answers)
  | layers_new_from_visible_cmd_callback (action : GtkAction) (data : ActionData) (a : Answers)
  | layers_new_group_cmd_callback (action : GtkAction) (data : ActionData) (a : Answers)
  | layers_select_cmd_callback (action : GtkAction) (value : Int) (data : ActionData)
      (a : Answers)
  | layers_raise_cmd_callback (action : GtkAction) (data : ActionData) (a : Answers)
  | layers_raise_to_top_cmd_callback (action : GtkAction) (data : ActionData) (a : Answers)
  | layers_lower_cmd_callback (action : GtkAction) (data : ActionData) (a : Answers)
  | layers_lower_to_bottom_cmd_callback (action : GtkAction) (data : ActionData) (a : Answers)
  | layers_duplicate_cmd_callback (action : GtkAction) (data : ActionData) (a : Answers)
  | layers_anchor_cmd_callback (action : GtkAction) (data : ActionData) (a : Answers)
  | layers_merge_down_cmd_callback (action : GtkAction) (data : ActionData) (a : Answers)
  | layers_merge_group_cmd_callback (action : GtkAction) (data : ActionData) (a : Answers)
  | layers_delete_cmd_callback (action : GtkAction) (data : ActionData) (a : Answers)
  | layers_text_discard_cmd_callback (action : GtkAction) (data : ActionData) (a : Answers)
  | layers_text_to_vectors_cmd_callback (action : GtkAction) (data : ActionData) (a : Answers)
  | layers_text_along_vectors_cmd_callback (action : GtkAction) (data : ActionData) (a : Answers)
  | layers_resize_cmd_callback (action : GtkAction) (data : ActionData) (a : Answers)
  | layers_resize_to_image_cmd_callback (action : GtkAction) (data : ActionData) (a : Answers)
  | layers_scale_cmd_callback (action : GtkAction) (data : ActionData) (a : Answers)
  | layers_crop_to_selection_cmd_callback (action : GtkAction) (data : ActionData) (a : Answers)
  | layers_crop_to_content_cmd_callback (action : GtkAction) (data : ActionData) (a : Answers)
  | layers_mask_add_cmd_callback (action : GtkAction) (data : ActionData) (a : Answers)
  | layers_mask_add_last_vals_cmd_callback (action : GtkAction) (data : ActionData) (a : Answers)
  | layers_mask_apply_cmd_callback (action : GtkAction) (value : Int) (data : ActionData)
      (a : Answers)
  | layers_mask_edit_cmd_callback (action : GtkAction) (data : ActionData) (a : Answers)
  | layers_mask_show_cmd_callback (action : GtkAction) (data : ActionData) (a : Answers)
  | layers_mask_disable_cmd_callback (action : GtkAction) (data : ActionData) (a : Answers)
  | layers_mask_to_selection_cmd_callback (action : GtkAction) (value : Int) (data : ActionData)
      (a : Answers)
  | layers_alpha_add_cmd_callback (action : GtkAction) (data : ActionData) (a : Answers)
  | layers_alpha_remove_cmd_callback (action : GtkAction) (data : ActionData) (a : Answers)
  | layers_alpha_to_selection_cmd_callback (action : GtkAction) (value : Int) (data : ActionData)
      (a : Answers)
  | layers_opacity_cmd_callback (action : GtkAction) (value : Int) (data : ActionData)
      (a : Answers)
  | layers_mode_cmd_callback (action : GtkAction) (value : Int) (data : ActionData)
      (a : Answers)
  | layers_lock_alpha_cmd_callback (action : GtkAction) (data : ActionData) (a : Answers)
  | layers_new_callback (dialog : Nat) (image : GimpImage)
      (context : GimpContext) (layer_name : String) (layer_fill_type : GimpFillType)
      (layer_width layer_height : Int) (allocated : Bool)
  | layers_edit_attributes_callback (dialog : Nat) (image : GimpImage)
      (layer : GimpLayer) (layer_name : String) (rename_text_layer : Bool)
      (rename_error : Option String)
  | layers_add_mask_callback (dialog : Nat) (layer : GimpLayer)
      (add_mask_type : GimpAddMaskType) (channel : Option Nat) (invert : Bool)
      (add_mask_error : Option String)
  | layers_scale_callback (dialog : Nat) (viewable : GimpItem)
      (width height : Int) (unit : GimpUnit) (interpolation : GimpInterpolationType)
      (user_data : Option GimpDisplay) (started : Option GimpProgress)
  | layers_resize_callback (dialog : Nat) (viewable : GimpItem)
      (context : GimpContext) (width height : Int) (unit : GimpUnit)
      (offset_x offset_y : Int)

/-- Run an invocation. -/
def Invocation.run : Invocation → St → St
  | Invocation.layers_text_tool_cmd_callback action data a, s =>
    LayersCommands.layers_text_tool_cmd_callback action data a s
  | Invocation.layers_edit_attributes_cmd_callback action data a, s =>
    LayersCommands.layers_edit_attributes_cmd_callback action data a s
  | Invocation.layers_new_cmd_callback action data a, s =>
    LayersCommands.layers_new_cmd_callback action data a s
  | Invocation.layers_new_last_vals_cmd_callback action data a, s =>
    LayersCommands.layers_new_last_vals_cmd_callback action data a s
  | Invocation.layers_new_from_visible_cmd_callback action data a, s =>
    LayersCommands.layers_new_from_visible_cmd_callback action data a s
  | Invocation.layers_new_group_cmd_callback action data a, s =>
    LayersCommands.layers_new_group_cmd_callback action data a s
  | Invocation.layers_select_cmd_callback action value data a, s =>
    LayersCommands.layers_select_cmd_callback action value data a s
  | Invocation.layers_raise_cmd_callback action data a, s =>
    LayersCommands.layers_raise_cmd_callback action data a s
  | Invocation.layers_raise_to_top_cmd_callback action data a, s =>
    LayersCommands.layers_raise_to_top_cmd_callback action data a s
  | Invocation.layers_lower_cmd_callback action data a, s =>
    LayersCommands.layers_lower_cmd_callback action data a s
  | Invocation.layers_lower_to_bottom_cmd_callback action data a, s =>
    LayersCommands.layers_lower_to_bottom_cmd_callback action data a s
  | Invocation.layers_duplicate_cmd_callback action data a, s =>
    LayersCommands.layers_duplicate_cmd_callback action data a s
  | Invocation.layers_anchor_cmd_callback action data a, s =>
    LayersCommands.layers_anchor_cmd_callback action data a s
  | Invocation.layers_merge_down_cmd_callback action data a, s =>
    LayersCommands.layers_merge_down_cmd_callback action data a s
  | Invocation.layers_merge_group_cmd_callback action data a, s =>
    LayersCommands.layers_merge_group_cmd_callback action data a s
  | Invocation.layers_delete_cmd_callback action data a, s =>
    LayersCommands.layers_delete_cmd_callback action data a s
  | Invocation.layers_text_discard_cmd_callback action data a, s =>
    LayersCommands.layers_text_discard_cmd_callback action data a s
  | Invocation.layers_text_to_vectors_cmd_callback action data a, s =>
    LayersCommands.layers_text_to_vectors_cmd_callback action data a s
  | Invocation.layers_text_along_vectors_cmd_callback action data a, s =>
    LayersCommands.layers_text_along_vectors_cmd_callback action data a s
  | Invocation.layers_resize_cmd_callback action data a, s =>
    LayersCommands.layers_resize_cmd_callback action data a s
  | Invocation.layers_resize_to_image_cmd_callback action data a, s =>
    LayersCommands.layers_resize_to_image_cmd_callback action data a s
  | Invocation.layers_scale_cmd_callback action data a, s =>
    LayersCommands.layers_scale_cmd_callback action data a s
  | Invocation.layers_crop_to_selection_cmd_callback action data a, s =>
    LayersCommands.layers_crop_to_selection_cmd_callback action data a s
  | Invocation.layers_crop_to_content_cmd_callback action data a, s =>
    LayersCommands.layers_crop_to_content_cmd_callback action data a s
  | Invocation.layers_mask_add_cmd_callback action data a, s =>
    LayersCommands.layers_mask_add_cmd_callback action data a s
  | Invocation.layers_mask_add_last_vals_cmd_callback action data a, s =>
    LayersCommands.layers_mask_add_last_vals_cmd_callback action data a s
  | Invocation.layers_mask_apply_cmd_callback action value data a, s =>
    LayersCommands.layers_mask_apply_cmd_callback action value data a s
  | Invocation.layers_mask_edit_cmd_callback action data a, s =>
    LayersCommands.layers_mask_edit_cmd_callback action data a s
  | Invocation.layers_mask_show_cmd_callback action data a, s =>
    LayersCommands.layers_mask_show_cmd_callback action data a s
  | Invocation.layers_mask_disable_cmd_callback action data a, s =>
    LayersCommands.layers_mask_disable_cmd_callback action data a s
  | Invocation.layers_mask_to_selection_cmd_callback action value data a, s =>
    LayersCommands.layers_mask_to_selection_cmd_callback action value data a s
  | Invocation.layers_alpha_add_cmd_callback action data a, s =>
    LayersCommands.layers_alpha_add_cmd_callback action data a s
  | Invocation.layers_alpha_remove_cmd_callback action data a, s =>
    LayersCommands.layers_alpha_remove_cmd_callback action data a s
  | Invocation.layers_alpha_to_selection_cmd_callback action value data a, s =>
    LayersCommands.layers_alpha_to_selection_cmd_callback action value data a s
  | Invocation.layers_opacity_cmd_callback action value data a, s =>
    LayersCommands.layers_opacity_cmd_callback action value data a s
  | Invocation.layers_mode_cmd_callback action value data a, s =>
    LayersCommands.layers_mode_cmd_callback action value data a s
  | Invocation.layers_lock_alpha_cmd_callback action data a, s =>
    LayersCommands.layers_lock_alpha_cmd_callback action data a s
  | Invocation.layers_new_callback dialog image context layer_name layer_fill_type
      layer_width layer_height allocated, s =>
    LayersCommands.layers_new_callback dialog image context layer_name
      layer_fill_type layer_width layer_height allocated s
  | Invocation.layers_edit_attributes_callback dialog image layer layer_name
      rename_text_layer rename_error, s =>
    LayersCommands.layers_edit_attributes_callback dialog image layer layer_name
      rename_text_layer rename_error s
  | Invocation.layers_add_mask_callback dialog layer add_mask_type channel invert
      add_mask_error, s =>
    LayersCommands.layers_add_mask_callback dialog layer add_mask_type channel
      invert add_mask_error s
  | Invocation.layers_scale_callback dialog viewable width height unit interpolation
      user_data started, s =>
    LayersCommands.layers_scale_callback dialog viewable width height unit
      interpolation user_data started s
  | Invocation.layers_resize_callback dialog viewable context width height unit
      offset_x offset_y, s =>
    LayersCommands.layers_resize_callback dialog viewable context width height
      unit offset_x offset_y s

/-- Scan of the undo group calls of a log, from `depth` groups open: the number
of groups open at the end, or `none` when a group is opened while one is open
or a group is closed while none is open. -/
def undoScan : List Call → Nat → Option Nat
  | [], depth => some depth
  | Call.gimp_image_undo_group_start _ _ _ :: calls, depth =>
    if depth = 0 then undoScan calls 1 else none
  | Call.gimp_image_undo_group_end _ :: calls, depth =>
    if depth = 0 then none else undoScan calls (depth - 1)
  | _ :: calls, depth => undoScan calls depth

/-- Whether a call opens an undo group. -/
def Call.isUndoGroupStart : Call → Bool
  | Call.gimp_image_undo_group_start _ _ _ => true
  | _ => false

/-- Whether a call closes an undo group. -/
def Call.isUndoGroupEnd : Call → Bool
  | Call.gimp_image_undo_group_end _ => true
  | _ => false

/-- Whether an invocation is one of the four callbacks that assign to the
private variables: the resize and scale dialog commits and the two commands
that open these dialogs. -/
def Invocation.assignsSettings : Invocation → Bool
  | Invocation.layers_resize_callback _ _ _ _ _ _ _ _ => true
  | Invocation.layers_scale_callback _ _ _ _ _ _ _ _ => true
  | Invocation.layers_resize_cmd_callback _ _ _ => true
  | Invocation.layers_scale_cmd_callback _ _ _ => true
  | _ => false

/-- Whether a call is the scale primitive. -/
def Call.isScale : Call → Bool
  | Call.gimp_item_scale_by_origin _ _ _ _ _ _ => true
  | _ => false

/-- Whether a call is the flush of an image. -/
def Call.isFlush : Call → Bool
  | Call.gimp_image_flush _ => true
  | _ => false

/-- Whether a call starts a progress. -/
def Call.isProgressStart : Call → Bool
  | Call.gimp_progress_start _ _ _ => true
  | _ => false

/-- Whether a call ends a progress. -/
def Call.isProgressEnd : Call → Bool
  | Call.gimp_progress_end _ => true
  | _ => false

/-- Whether a call creates a standalone progress surface. -/
def Call.isSurfaceNew : Call → Bool
  | Call.gimp_progress_dialog_new => true
  | _ => false

/-- Whether a call destroys the standalone progress surface. -/
def Call.isSurfaceDestroy : Call → Bool
  | Call.gtk_widget_destroy GtkWidget.progress_dialog => true
  | _ => false

/-- The unit and, for the scale dialog, the interpolation a call constructs a
resize or scale dialog with. -/
def Call.dialogSettings : Call → Option (GimpUnit × Option GimpInterpolationType)
  | Call.resize_dialog_new _ _ _ _ _ unit _ => some (unit, none)
  | Call.scale_dialog_new _ _ _ _ _ unit interpolation _ _ =>
    some (unit, some interpolation)
  | _ => none

/-- The example layer with a mask. -/
def example_masked_layer : GimpLayer := { example_layer with mask := some 8 }

/-- The example answers with the masked example layer active. -/
def example_masked_answers : Answers :=
  { example_answers with active_layer := some example_masked_layer }

/-- The example answers with a floating selection in the image. -/
def example_floating_answers : Answers :=
  { example_answers with floating_sel := some 11 }

/-- Whether a call reports a message to the user. -/
def Call.isMessage : Call → Bool
  | Call.gimp_message_literal _ _ _ => true
  | _ => false

/-- Whether a call releases an object. -/
def Call.isUnref : Call → Bool
  | Call.g_object_unref _ => true
  | _ => false

/-- Whether a call is the resize primitive. -/
def Call.isResize : Call → Bool
  | Call.gimp_item_resize _ _ _ _ _ _ => true
  | _ => false

/-- Scan of the flushes of a log against its undo groups, from `depth` groups
open: `false` when an image is flushed while a group is open. -/
def flushScan : List Call → Nat → Bool
  | [], _ => true
  | Call.gimp_image_undo_group_start _ _ _ :: calls, depth =>
    flushScan calls (depth + 1)
  | Call.gimp_image_undo_group_end _ :: calls, depth =>
    flushScan calls (depth - 1)
  | Call.gimp_image_flush _ :: calls, depth =>
    decide (depth = 0) && flushScan calls depth
  | _ :: calls, depth => flushScan calls depth

/-- The indices at which the loop of `layers_mode_index`, started at `i`, reads
`layer_modes`: the test `i < G_N_ELEMENTS (layer_modes) - 1` comes first, and
the table is read at `i` only when it holds. -/
def layers_mode_index_reads (layer_mode : GimpLayerModeEffects) : Nat → Nat → List Nat
  | 0, _ => []
  | fuel + 1, i =>
    if i < layer_modes_n - 1 then
      i :: (if layer_modes.get? i ≠ some layer_mode then
              layers_mode_index_reads layer_mode fuel (i + 1)
            else [])
    else []

/-- The example answers with a selection that covers the example layer
exactly: 100 x 100 at the layer's offset (10, 20). -/
def example_full_selection_answers : Answers :=
  { example_answers with
      selection_bounds :=
        { nonempty := true, x := 10, y := 20, width := 100, height := 100 } }

/-! ## Basic facts about the log -/

@[simp] theorem St.calls_call (s : St) (c : Call) :
    (s.call c).calls = s.calls ++ [c] := by
  simp [St.call, St.calls]

@[simp] theorem St.statics_call (s : St) (c : Call) :
    (s.call c).statics = s.statics := rfl

@[simp] theorem St.calls_start (g : Statics) : (St.start g).calls = [] := rfl

@[simp] theorem St.statics_start (g : Statics) : (St.start g).statics = g := rfl

@[simp] theorem St.calls_set_statics (s : St) (g : Statics) :
    St.calls { s with statics := g } = s.calls := rfl

/-! ## Arithmetic on `gint` -/

/-- The machine value of an integer that fits a `gint` is the integer. -/
theorem gint_wrap_of_fits (v : Int) (h : gint_fits v) : gint_wrap v = v := by
  unfold gint_fits G_MININT G_MAXINT at h
  unfold gint_wrap G_MININT
  omega

/-- Every machine value is a `gint`. -/
theorem gint_fits_wrap (v : Int) : gint_fits (gint_wrap v) := by
  unfold gint_fits gint_wrap G_MININT G_MAXINT
  omega

/-- The `gint` subtraction is the difference when the difference fits. -/
theorem gint_sub_of_fits (a b : Int) (h : gint_fits (a - b)) :
    gint_sub a b = a - b :=
  gint_wrap_of_fits (a - b) h

/-! ## Rejected and skipped commits -/

/-- C1: a commit of the resize dialog or of the scale dialog with width <= 0 or
height <= 0 makes exactly one call, the warning: the resize/scale primitive is
not invoked, no undo group is opened, no progress is started and the image is
not flushed. -/
theorem invalid_dimensions_only_warn (dialog : Nat) (viewable : GimpItem)
    (context : GimpContext) (width height : Int) (unit : GimpUnit)
    (interpolation : GimpInterpolationType) (offset_x offset_y : Int)
    (user_data : Option GimpDisplay) (started : Option GimpProgress) (g : Statics)
    (h : width ≤ 0 ∨ height ≤ 0) :
    (layers_resize_callback dialog viewable context width height unit
        offset_x offset_y (St.start g)).calls
      = [Call.g_warning
          "Resize Error: Both width and height must be greater than zero."]
    ∧ (layers_scale_callback dialog viewable width height unit interpolation
        user_data started (St.start g)).calls
      = [Call.g_warning
          "Scale Error: Both width and height must be greater than zero."] := by
  have hn : ¬ (0 < width ∧ 0 < height) := by omega
  constructor
  · simp [layers_resize_callback, hn]
  · simp [layers_scale_callback, hn]

/-- Witness for C1: a resize and a scale commit with width 0 on the 100 x 100
example item. -/
theorem invalid_dimensions_only_warn_witness :
    ((0 : Int) ≤ 0 ∨ (150 : Int) ≤ 0)
    ∧ (layers_resize_callback 3 example_item ⟨2⟩ 0 150
        GimpUnit.GIMP_UNIT_PIXEL 0 0 (St.start Statics.initial)).calls
      = [Call.g_warning
          "Resize Error: Both width and height must be greater than zero."]
    ∧ (layers_scale_callback 3 example_item 0 150
        GimpUnit.GIMP_UNIT_PIXEL 2 none none (St.start Statics.initial)).calls
      = [Call.g_warning
          "Scale Error: Both width and height must be greater than zero."] :=
  ⟨Or.inl (le_refl 0),
   invalid_dimensions_only_warn 3 example_item ⟨2⟩ 0 150
     GimpUnit.GIMP_UNIT_PIXEL 2 0 0 none none Statics.initial (Or.inl (le_refl 0))⟩

/-- C2: a commit of the resize dialog or of the scale dialog with positive
width and height equal to the current width and height of the item makes
exactly one call, the destruction of the dialog: no resize/scale primitive, no
undo group, no progress, no flush.  Consequently, when a first resize commit to
(width, height) leaves the item (under any effect `core` of the core on the
item) with these dimensions, a second resize commit requesting them adds
nothing but the destruction of its dialog. -/
theorem same_dimensions_commit_is_noop (dialog dialog0 : Nat)
    (item item0 : GimpItem) (context context0 : GimpContext) (width height : Int)
    (unit unit0 : GimpUnit) (interpolation : GimpInterpolationType)
    (offset_x offset_y offset_x0 offset_y0 : Int)
    (user_data : Option GimpDisplay) (started : Option GimpProgress) (g : Statics)
    (core : GimpItem → Call → GimpItem)
    (hw : 0 < width) (hh : 0 < height)
    (hitem : item.width = width ∧ item.height = height)
    (hfirst :
      (item_after core item0
        (layers_resize_callback dialog0 item0 context0 width height unit0
          offset_x0 offset_y0 (St.start g)).calls).width = width
      ∧ (item_after core item0
        (layers_resize_callback dialog0 item0 context0 width height unit0
          offset_x0 offset_y0 (St.start g)).calls).height = height) :
    (layers_resize_callback dialog item context width height unit
        offset_x offset_y (St.start g)).calls = [Call.gtk_widget_destroy (GtkWidget.widget dialog)]
    ∧ (layers_scale_callback dialog item width height unit interpolation
        user_data started (St.start g)).calls = [Call.gtk_widget_destroy (GtkWidget.widget dialog)]
    ∧ (layers_resize_callback dialog
        (item_after core item0
          (layers_resize_callback dialog0 item0 context0 width height unit0
            offset_x0 offset_y0 (St.start g)).calls)
        context width height unit offset_x offset_y
        (layers_resize_callback dialog0 item0 context0 width height unit0
          offset_x0 offset_y0 (St.start g))).calls
      = (layers_resize_callback dialog0 item0 context0 width height unit0
          offset_x0 offset_y0 (St.start g)).calls
        ++ [Call.gtk_widget_destroy (GtkWidget.widget dialog)] := by
  obtain ⟨hiw, hih⟩ := hitem
  obtain ⟨hfw, hfh⟩ := hfirst
  refine ⟨?_, ?_, ?_⟩
  · simp [layers_resize_callback, hw, hh, hiw, hih]
  · simp [layers_scale_callback, hw, hh, hiw, hih]
  · generalize hs : layers_resize_callback dialog0 item0 context0 width height unit0
        offset_x0 offset_y0 (St.start g) = first at hfw hfh ⊢
    generalize item_after core item0 first.calls = item1 at hfw hfh ⊢
    simp [layers_resize_callback, hw, hh, hfw, hfh]

/-- Witness for C2: the 100 x 100 example item is first resized to 200 x 150
(the example core then reports 200 x 150), and 200 x 150 is requested again. -/
theorem same_dimensions_commit_is_noop_witness :
    (layers_resize_callback 4
        (item_after example_core example_item
          (layers_resize_callback 3 example_item ⟨2⟩ 200 150
            GimpUnit.GIMP_UNIT_PIXEL 0 0 (St.start Statics.initial)).calls)
        ⟨2⟩ 200 150 GimpUnit.GIMP_UNIT_PERCENT 1 1
        (layers_resize_callback 3 example_item ⟨2⟩ 200 150
          GimpUnit.GIMP_UNIT_PIXEL 0 0 (St.start Statics.initial))).calls
      = [Call.gtk_widget_destroy (GtkWidget.widget 3),
         Call.gimp_item_resize 7 ⟨2⟩ 200 150 0 0,
         Call.gimp_image_flush example_image,
         Call.gtk_widget_destroy (GtkWidget.widget 4)] :=
  (same_dimensions_commit_is_noop 4 3
    { example_item with width := 200, height := 150 } example_item ⟨2⟩ ⟨2⟩ 200 150
    GimpUnit.GIMP_UNIT_PERCENT GimpUnit.GIMP_UNIT_PIXEL 2 1 1 0 0 none none
    Statics.initial example_core (by decide) (by decide) ⟨rfl, rfl⟩
    ⟨by decide, by decide⟩).2.2

/-- C3, as stated, fails: the resize commit of 200 x 150 on the 100 x 100
example item reaches the mutation, and its geometry steps are the mutation and
the flush, not undo start, mutation, undo end, flush. -/
theorem resize_commit_opens_no_undo_group :
    (0 : Int) < 200 ∧ (0 : Int) < 150
    ∧ ¬ ((200 : Int) = example_item.width ∧ (150 : Int) = example_item.height)
    ∧ geometrySteps
        (layers_resize_callback 3 example_item ⟨2⟩ 200 150
          GimpUnit.GIMP_UNIT_PIXEL 0 0 (St.start Statics.initial)).calls
      = [GeometryStep.mutation, GeometryStep.flush]
    ∧ geometrySteps
        (layers_resize_callback 3 example_item ⟨2⟩ 200 150
          GimpUnit.GIMP_UNIT_PIXEL 0 0 (St.start Statics.initial)).calls
      ≠ [GeometryStep.undo_open, GeometryStep.mutation, GeometryStep.undo_close,
         GeometryStep.flush] := by
  decide

/-- C3, amended: crop-to-selection with a non-empty selection and
crop-to-content with a shrinkable result make exactly the calls undo group
start, resize, undo group end, flush.  A resize or scale dialog commit that
reaches the mutation opens no undo group itself: the resize commit makes
exactly the calls dialog destroy, resize, flush; the scale commit makes
exactly the calls dialog destroy, progress surface creation when no display is
bound, progress start, scale, progress end when the start returned a progress,
surface destruction when one was created, flush. -/
theorem geometry_command_sequences (action : GtkAction) (data : ActionData)
    (a : Answers) (image : GimpImage) (layer : GimpLayer) (widget : GtkWidget)
    (dialog : Nat) (viewable : GimpItem) (context : GimpContext)
    (width height : Int) (unit : GimpUnit) (interpolation : GimpInterpolationType)
    (offset_x offset_y : Int) (user_data : Option GimpDisplay)
    (started : Option GimpProgress) (g : Statics) :
    (data.image = some image → a.active_layer = some layer →
      data.widget = some widget → a.selection_bounds.nonempty = true →
      (layers_crop_to_selection_cmd_callback action data a (St.start g)).calls
        = [Call.gimp_image_undo_group_start image
             GimpUndoType.GIMP_UNDO_GROUP_ITEM_RESIZE "Crop Layer to Selection",
           Call.gimp_item_resize layer.id data.context
             a.selection_bounds.width a.selection_bounds.height
             (gint_sub layer.offset_x a.selection_bounds.x)
             (gint_sub layer.offset_y a.selection_bounds.y),
           Call.gimp_image_undo_group_end image,
           Call.gimp_image_flush image])
    ∧ (data.image = some image → a.active_layer = some layer →
      data.widget = some widget →
      (a.auto_shrink 0 0 layer.width layer.height).result
        = GimpAutoShrink.GIMP_AUTO_SHRINK_SHRINK →
      (layers_crop_to_content_cmd_callback action data a (St.start g)).calls
        = [Call.gimp_image_undo_group_start image
             GimpUndoType.GIMP_UNDO_GROUP_ITEM_RESIZE "Crop Layer to Content",
           Call.gimp_item_resize layer.id data.context
             (a.auto_shrink 0 0 layer.width layer.height).width
             (a.auto_shrink 0 0 layer.width layer.height).height
             (-(a.auto_shrink 0 0 layer.width layer.height).x)
             (-(a.auto_shrink 0 0 layer.width layer.height).y),
           Call.gimp_image_undo_group_end image,
           Call.gimp_image_flush image])
    ∧ (0 < width → 0 < height →
      ¬ (width = viewable.width ∧ height = viewable.height) →
      (layers_resize_callback dialog viewable context width height unit
          offset_x offset_y (St.start g)).calls
        = [Call.gtk_widget_destroy (GtkWidget.widget dialog),
           Call.gimp_item_resize viewable.id context width height offset_x offset_y,
           Call.gimp_image_flush viewable.image])
    ∧ (0 < width → 0 < height →
      ¬ (width = viewable.width ∧ height = viewable.height) →
      (layers_scale_callback dialog viewable width height unit interpolation
          user_data started (St.start g)).calls
        = [Call.gtk_widget_destroy (GtkWidget.widget dialog)]
          ++ (match user_data with
              | some _ => []
              | none => [Call.gimp_progress_dialog_new])
          ++ [Call.gimp_progress_start
                (match user_data with
                 | some d => GimpProgress.display d
                 | none => GimpProgress.progress_dialog) false "Scaling",
              Call.gimp_item_scale_by_origin viewable.id width height
                interpolation started true]
          ++ (match started with
              | some p => [Call.gimp_progress_end p]
              | none => [])
          ++ (match user_data with
              | some _ => []
              | none => [Call.gtk_widget_destroy GtkWidget.progress_dialog])
          ++ [Call.gimp_image_flush viewable.image]) := by
  refine ⟨?_, ?_, ?_, ?_⟩
  · intro himage hlayer hwidget hsel
    simp [layers_crop_to_selection_cmd_callback, himage, hlayer, hwidget, hsel]
  · intro himage hlayer hwidget hshrink
    simp [layers_crop_to_content_cmd_callback, himage, hlayer, hwidget, hshrink]
  · intro hw hh hdiff
    simp [layers_resize_callback, hw, hh, hdiff]
  · intro hw hh hdiff
    cases user_data <;> cases started <;>
      simp [layers_scale_callback, hw, hh, hdiff]

/-- Witness for C3 (amended): the example layer with the example selection of
30 x 40 at (5, 6); the content detection plays no part. -/
theorem geometry_command_sequences_witness :
    (layers_crop_to_selection_cmd_callback ⟨none, false⟩ example_data
        example_answers (St.start Statics.initial)).calls
      = [Call.gimp_image_undo_group_start example_image
           GimpUndoType.GIMP_UNDO_GROUP_ITEM_RESIZE "Crop Layer to Selection",
         Call.gimp_item_resize 7 ⟨2⟩ 30 40 5 14,
         Call.gimp_image_undo_group_end example_image,
         Call.gimp_image_flush example_image] :=
  (geometry_command_sequences ⟨none, false⟩ example_data example_answers
    example_image example_layer (GtkWidget.widget 5) 3 example_item ⟨2⟩ 200 150
    GimpUnit.GIMP_UNIT_PIXEL 2 0 0 none none Statics.initial).1 rfl rfl rfl rfl

/-! ## Undo groups -/

/-- C4: for every callback of the file, on every path, the undo group calls of
the callback are well bracketed with depth at most one: scanning the calls from
no open group, no group is closed while none is open, none is opened while one
is open, and none is left open at the end; the callback closes as many groups
as it opens. -/
theorem undo_groups_balanced (inv : Invocation) (g : Statics) :
    undoScan (inv.run (St.start g)).calls 0 = some 0
    ∧ (inv.run (St.start g)).calls.countP Call.isUndoGroupStart
      = (inv.run (St.start g)).calls.countP Call.isUndoGroupEnd := by
  cases inv <;> simp only [Invocation.run]
  all_goals
    first
    | (unfold layers_text_tool_cmd_callback layers_edit_attributes_cmd_callback)
    | (unfold layers_new_last_vals_cmd_callback layers_new_cmd_callback)
    | (unfold layers_mask_add_last_vals_cmd_callback layers_mask_add_cmd_callback)
    | skip
  all_goals
    simp only [layers_edit_attributes_cmd_callback, layers_new_cmd_callback,
      layers_new_from_visible_cmd_callback, layers_new_group_cmd_callback,
      layers_select_cmd_callback, layers_raise_cmd_callback,
      layers_raise_to_top_cmd_callback, layers_lower_cmd_callback,
      layers_lower_to_bottom_cmd_callback, layers_duplicate_cmd_callback,
      layers_anchor_cmd_callback, layers_merge_down_cmd_callback,
      layers_merge_group_cmd_callback, layers_delete_cmd_callback,
      layers_text_discard_cmd_callback, layers_text_to_vectors_cmd_callback,
      layers_text_along_vectors_cmd_callback, layers_resize_cmd_callback,
      layers_resize_to_image_cmd_callback, layers_scale_cmd_callback,
      layers_crop_to_selection_cmd_callback, layers_crop_to_content_cmd_callback,
      layers_mask_add_cmd_callback, layers_mask_apply_cmd_callback,
      layers_mask_edit_cmd_callback, layers_mask_show_cmd_callback,
      layers_mask_disable_cmd_callback, layers_mask_to_selection_cmd_callback,
      layers_alpha_add_cmd_callback, layers_alpha_remove_cmd_callback,
      layers_alpha_to_selection_cmd_callback, layers_opacity_cmd_callback,
      layers_mode_cmd_callback, layers_lock_alpha_cmd_callback,
      layers_new_callback, layers_edit_attributes_callback,
      layers_add_mask_callback, layers_scale_callback, layers_resize_callback]
  all_goals
    (repeat' split) <;>
      simp [undoScan, Call.isUndoGroupStart, Call.isUndoGroupEnd]

/-! ## Crop to content -/

/-- C5: with image, layer and widget present, `layers_crop_to_content_cmd_callback`
runs the content detection over (0, 0, layer width, layer height) and, on
SHRINK with (x, y, w, h), makes exactly the calls undo group start, resize to
w x h with offsets (-x, -y), undo group end, flush (no message); on EMPTY and
on UNSHRINKABLE it makes exactly one call, an informational message (no undo
group, no resize, no flush). -/
theorem crop_to_content_outcomes (action : GtkAction) (data : ActionData)
    (a : Answers) (image : GimpImage) (layer : GimpLayer) (widget : GtkWidget)
    (g : Statics)
    (himage : data.image = some image) (hlayer : a.active_layer = some layer)
    (hwidget : data.widget = some widget) :
    (layers_crop_to_content_cmd_callback action data a (St.start g)).calls
      = match (a.auto_shrink 0 0 layer.width layer.height).result with
        | GimpAutoShrink.GIMP_AUTO_SHRINK_SHRINK =>
          [Call.gimp_image_undo_group_start image
             GimpUndoType.GIMP_UNDO_GROUP_ITEM_RESIZE "Crop Layer to Content",
           Call.gimp_item_resize layer.id data.context
             (a.auto_shrink 0 0 layer.width layer.height).width
             (a.auto_shrink 0 0 layer.width layer.height).height
             (-(a.auto_shrink 0 0 layer.width layer.height).x)
             (-(a.auto_shrink 0 0 layer.width layer.height).y),
           Call.gimp_image_undo_group_end image,
           Call.gimp_image_flush image]
        | GimpAutoShrink.GIMP_AUTO_SHRINK_EMPTY =>
          [Call.gimp_message_literal widget GimpMessageSeverity.GIMP_MESSAGE_INFO
             "Cannot crop because the active layer has no content."]
        | GimpAutoShrink.GIMP_AUTO_SHRINK_UNSHRINKABLE =>
          [Call.gimp_message_literal widget GimpMessageSeverity.GIMP_MESSAGE_INFO
             "Cannot crop because the active layer is already cropped to its content."] := by
  simp only [layers_crop_to_content_cmd_callback, himage, hlayer, hwidget]
  cases (a.auto_shrink 0 0 layer.width layer.height).result <;> simp

/-- Witness for C5: the example layer, whose content is found two pixels inside
its extent, is resized to 96 x 96 with offsets (-2, -2). -/
theorem crop_to_content_outcomes_witness :
    (layers_crop_to_content_cmd_callback ⟨none, false⟩ example_data example_answers
        (St.start Statics.initial)).calls
      = [Call.gimp_image_undo_group_start example_image
           GimpUndoType.GIMP_UNDO_GROUP_ITEM_RESIZE "Crop Layer to Content",
         Call.gimp_item_resize 7 ⟨2⟩ (100 - 4) (100 - 4) (-(0 + 2)) (-(0 + 2)),
         Call.gimp_image_undo_group_end example_image,
         Call.gimp_image_flush example_image] :=
  crop_to_content_outcomes ⟨none, false⟩ example_data example_answers
    example_image example_layer (GtkWidget.widget 5) Statics.initial rfl rfl rfl

/-! ## The last-used settings -/

/-- The settings after a resize commit, on every path. -/
theorem layers_resize_callback_statics (dialog : Nat) (viewable : GimpItem)
    (context : GimpContext) (width height : Int) (unit : GimpUnit)
    (offset_x offset_y : Int) (s : St) :
    (layers_resize_callback dialog viewable context width height unit
        offset_x offset_y s).statics
      = { s.statics with layer_resize_unit := unit } := by
  simp only [layers_resize_callback]
  (repeat' split) <;> simp

/-- The settings after a scale commit, on every path. -/
theorem layers_scale_callback_statics (dialog : Nat) (viewable : GimpItem)
    (width height : Int) (unit : GimpUnit) (interpolation : GimpInterpolationType)
    (user_data : Option GimpDisplay) (started : Option GimpProgress) (s : St) :
    (layers_scale_callback dialog viewable width height unit interpolation
        user_data started s).statics
      = { s.statics with layer_scale_unit := unit,
                         layer_scale_interp := interpolation } := by
  simp only [layers_scale_callback]
  (repeat' split) <;> simp

/-- C6, as stated, fails: a scale commit rejected for width 0 still stores the
committed unit and interpolation, and opening the resize dialog from an image
window stores the unit of the display's shell. -/
theorem rejected_commit_changes_settings :
    (layers_scale_callback 3 example_item 0 150 GimpUnit.GIMP_UNIT_PERCENT 3
        none none (St.start Statics.initial)).calls
      = [Call.g_warning
          "Scale Error: Both width and height must be greater than zero."]
    ∧ (layers_scale_callback 3 example_item 0 150 GimpUnit.GIMP_UNIT_PERCENT 3
        none none (St.start Statics.initial)).statics
      = { layer_resize_unit := GimpUnit.GIMP_UNIT_PIXEL,
          layer_scale_unit := GimpUnit.GIMP_UNIT_PERCENT,
          layer_scale_interp := 3 }
    ∧ (layers_scale_callback 3 example_item 0 150 GimpUnit.GIMP_UNIT_PERCENT 3
        none none (St.start Statics.initial)).statics ≠ Statics.initial
    ∧ (layers_resize_cmd_callback ⟨none, false⟩ example_window_data example_answers
        (St.start Statics.initial)).statics.layer_resize_unit
      ≠ Statics.initial.layer_resize_unit :=
  ⟨rfl, rfl, by decide, by decide⟩

/-- C6, amended: a resize commit stores the committed unit in
`layer_resize_unit` and a scale commit stores the committed unit and
interpolation in `layer_scale_unit` and `layer_scale_interp`, for every width
and height (also non-positive ones), and changes no other setting.  Opening the
resize (scale) dialog changes no setting when a dialog is already attached;
it keeps the unit setting when that is percent or no display is bound, and
stores the unit of the display's shell when the dialog is made, a display is
bound and the setting is not percent; opening the scale dialog keeps an
interpolation setting other than -1.  No other callback of the file changes the
settings. -/
theorem settings_after_callbacks (inv : Invocation) (action : GtkAction)
    (data : ActionData) (a : Answers) (dialog : Nat) (viewable : GimpItem)
    (context : GimpContext) (width height : Int) (unit : GimpUnit)
    (interpolation : GimpInterpolationType) (offset_x offset_y : Int)
    (user_data : Option GimpDisplay) (started : Option GimpProgress)
    (g : Statics) :
    (layers_resize_callback dialog viewable context width height unit
        offset_x offset_y (St.start g)).statics
      = { g with layer_resize_unit := unit }
    ∧ (layers_scale_callback dialog viewable width height unit interpolation
        user_data started (St.start g)).statics
      = { g with layer_scale_unit := unit, layer_scale_interp := interpolation }
    ∧ ((a.attached_dialog DialogKey.RESIZE_DIALOG_KEY).isSome
          ∨ g.layer_resize_unit = GimpUnit.GIMP_UNIT_PERCENT
          ∨ data.is_image_window = false ∨ data.display = none →
        (layers_resize_cmd_callback action data a (St.start g)).statics = g)
    ∧ (∀ image layer widget d, data.image = some image →
        a.active_layer = some layer → data.widget = some widget →
        a.attached_dialog DialogKey.RESIZE_DIALOG_KEY = none →
        data.is_image_window = true → data.display = some d →
        g.layer_resize_unit ≠ GimpUnit.GIMP_UNIT_PERCENT →
        (layers_resize_cmd_callback action data a (St.start g)).statics
          = { g with layer_resize_unit := d.shell_unit })
    ∧ ((a.attached_dialog DialogKey.SCALE_DIALOG_KEY).isSome →
        (layers_scale_cmd_callback action data a (St.start g)).statics = g)
    ∧ (g.layer_scale_unit = GimpUnit.GIMP_UNIT_PERCENT
          ∨ data.is_image_window = false ∨ data.display = none →
        (layers_scale_cmd_callback action data a (St.start g)).statics.layer_scale_unit
          = g.layer_scale_unit)
    ∧ (∀ image layer widget d, data.image = some image →
        a.active_layer = some layer → data.widget = some widget →
        a.attached_dialog DialogKey.SCALE_DIALOG_KEY = none →
        data.is_image_window = true → data.display = some d →
        g.layer_scale_unit ≠ GimpUnit.GIMP_UNIT_PERCENT →
        (layers_scale_cmd_callback action data a (St.start g)).statics.layer_scale_unit
          = d.shell_unit)
    ∧ (g.layer_scale_interp ≠ -1 →
        (layers_scale_cmd_callback action data a (St.start g)).statics.layer_scale_interp
          = g.layer_scale_interp)
    ∧ (layers_scale_cmd_callback action data a (St.start g)).statics.layer_resize_unit
        = g.layer_resize_unit
    ∧ (inv.assignsSettings = false → (inv.run (St.start g)).statics = g) := by
  refine ⟨?_, ?_, ?_, ?_, ?_, ?_, ?_, ?_, ?_, ?_⟩
  · exact layers_resize_callback_statics _ _ _ _ _ _ _ _ _
  · exact layers_scale_callback_statics _ _ _ _ _ _ _ _ _
  · intro h
    simp only [layers_resize_cmd_callback]
    (repeat' split) <;> simp_all
  · intro image layer widget d h1 h2 h3 h4 h5 h6 h7
    simp [layers_resize_cmd_callback, h1, h2, h3, h4, h5, h6, h7]
  · intro h
    simp only [layers_scale_cmd_callback]
    (repeat' split) <;> simp_all
  · intro h
    simp only [layers_scale_cmd_callback]
    (repeat' split) <;> simp_all
  · intro image layer widget d h1 h2 h3 h4 h5 h6 h7
    simp only [layers_scale_cmd_callback, h1, h2, h3, h4, h5, h6, h7]
    (repeat' split) <;> simp_all
  · intro h
    simp only [layers_scale_cmd_callback]
    (repeat' split) <;> simp_all
  · simp only [layers_scale_cmd_callback]
    (repeat' split) <;> simp_all
  · cases inv <;> simp only [Invocation.run, Invocation.assignsSettings] <;> intro h
    all_goals try contradiction
    all_goals
      first
      | (unfold layers_text_tool_cmd_callback layers_edit_attributes_cmd_callback)
      | (unfold layers_new_last_vals_cmd_callback layers_new_cmd_callback)
      | (unfold layers_mask_add_last_vals_cmd_callback layers_mask_add_cmd_callback)
      | skip
    all_goals
      simp only [layers_edit_attributes_cmd_callback, layers_new_cmd_callback,
        layers_new_from_visible_cmd_callback, layers_new_group_cmd_callback,
        layers_select_cmd_callback, layers_raise_cmd_callback,
        layers_raise_to_top_cmd_callback, layers_lower_cmd_callback,
        layers_lower_to_bottom_cmd_callback, layers_duplicate_cmd_callback,
        layers_anchor_cmd_callback, layers_merge_down_cmd_callback,
        layers_merge_group_cmd_callback, layers_delete_cmd_callback,
        layers_text_discard_cmd_callback, layers_text_to_vectors_cmd_callback,
        layers_text_along_vectors_cmd_callback,
        layers_resize_to_image_cmd_callback,
        layers_crop_to_selection_cmd_callback, layers_crop_to_content_cmd_callback,
        layers_mask_add_cmd_callback, layers_mask_apply_cmd_callback,
        layers_mask_edit_cmd_callback, layers_mask_show_cmd_callback,
        layers_mask_disable_cmd_callback, layers_mask_to_selection_cmd_callback,
        layers_alpha_add_cmd_callback, layers_alpha_remove_cmd_callback,
        layers_alpha_to_selection_cmd_callback, layers_opacity_cmd_callback,
        layers_mode_cmd_callback, layers_lock_alpha_cmd_callback,
        layers_new_callback, layers_edit_attributes_callback,
        layers_add_mask_callback]
    all_goals
      (repeat' split) <;> simp_all

/-- C7, as stated, fails: after a scale commit with unit 1 and interpolation 3,
the scale dialog made from an image window whose display shows unit 2 is
constructed with unit 2. -/
theorem next_scale_dialog_takes_display_unit :
    (layers_scale_callback 3 example_item 200 150 (GimpUnit.other 1) 3 none none
        (St.start Statics.initial)).statics.layer_scale_unit = GimpUnit.other 1
    ∧ (layers_scale_cmd_callback ⟨none, false⟩ example_window_data example_answers
        (St.start (layers_scale_callback 3 example_item 200 150 (GimpUnit.other 1) 3
          none none (St.start Statics.initial)).statics)).calls.filterMap
          Call.dialogSettings
      = [(GimpUnit.other 2, some 3)]
    ∧ (layers_scale_cmd_callback ⟨none, false⟩ example_window_data example_answers
        (St.start (layers_scale_callback 3 example_item 200 150 (GimpUnit.other 1) 3
          none none (St.start Statics.initial)).statics)).calls.filterMap
          Call.dialogSettings
      ≠ [(GimpUnit.other 1, some 3)] := by
  decide

/-- C7, amended: with image, layer and widget present, when no scale dialog is
attached, the scale command that follows a scale commit with unit `unit` and
interpolation `interpolation` makes exactly the calls scale dialog
construction, attachment, presentation, and constructs the dialog with
`interpolation` (with the configured interpolation type when `interpolation`
is -1) and with `unit` when `unit` is percent or no display is bound, else
with the unit of the display's shell.  Likewise, when no resize dialog is
attached, the resize command that follows a resize commit with unit `unit`
constructs the resize dialog with `unit` when `unit` is percent or no display
is bound, else with the unit of the display's shell. -/
theorem next_dialog_settings (action : GtkAction) (data : ActionData) (a : Answers)
    (image : GimpImage) (layer : GimpLayer) (widget : GtkWidget) (dialog : Nat)
    (viewable : GimpItem) (context : GimpContext) (width height : Int)
    (unit : GimpUnit) (interpolation : GimpInterpolationType)
    (offset_x offset_y : Int) (user_data : Option GimpDisplay)
    (started : Option GimpProgress) (g : Statics)
    (himage : data.image = some image) (hlayer : a.active_layer = some layer)
    (hwidget : data.widget = some widget) :
    (a.attached_dialog DialogKey.SCALE_DIALOG_KEY = none →
      (layers_scale_cmd_callback action data a
          (St.start (layers_scale_callback dialog viewable width height unit
            interpolation user_data started (St.start g)).statics)).calls
        = [Call.scale_dialog_new layer.id data.context "Scale Layer"
             "gimp-layer-scale" widget
             (match (if data.is_image_window then data.display else none) with
              | some d =>
                if unit = GimpUnit.GIMP_UNIT_PERCENT then unit else d.shell_unit
              | none => unit)
             (if interpolation = -1 then a.interpolation_type else interpolation)
             DialogCallback.layers_scale_callback
             (if data.is_image_window then data.display else none),
           Call.dialogs_attach_dialog (Obj.layer layer.id)
             DialogKey.SCALE_DIALOG_KEY GtkWidget.new_dialog,
           Call.gtk_window_present GtkWidget.new_dialog])
    ∧ (a.attached_dialog DialogKey.RESIZE_DIALOG_KEY = none →
      (layers_resize_cmd_callback action data a
          (St.start (layers_resize_callback dialog viewable context width height
            unit offset_x offset_y (St.start g)).statics)).calls
        = [Call.resize_dialog_new layer.id data.context "Set Layer Boundary Size"
             "gimp-layer-resize" widget
             (match (if data.is_image_window then data.display else none) with
              | some d =>
                if unit = GimpUnit.GIMP_UNIT_PERCENT then unit else d.shell_unit
              | none => unit)
             DialogCallback.layers_resize_callback,
           Call.dialogs_attach_dialog (Obj.layer layer.id)
             DialogKey.RESIZE_DIALOG_KEY GtkWidget.new_dialog,
           Call.gtk_window_present GtkWidget.new_dialog]) := by
  rw [layers_resize_callback_statics, layers_scale_callback_statics]
  constructor
  · intro hscale
    simp only [layers_scale_cmd_callback, himage, hlayer, hwidget, hscale]
    (repeat' split) <;> simp_all
  · intro hresize
    simp only [layers_resize_cmd_callback, himage, hlayer, hwidget, hresize]
    (repeat' split) <;> simp_all

/-- Witness for C7 (amended): after a scale commit with unit 1 and
interpolation 3, the example layer's scale dialog made without a display is
constructed with unit 1 and interpolation 3. -/
theorem next_dialog_settings_witness :
    (layers_scale_cmd_callback ⟨none, false⟩ example_data example_answers
        (St.start (layers_scale_callback 3 example_item 200 150 (GimpUnit.other 1) 3
          none none (St.start Statics.initial)).statics)).calls
      = [Call.scale_dialog_new 7 ⟨2⟩ "Scale Layer" "gimp-layer-scale"
           (GtkWidget.widget 5) (GimpUnit.other 1) 3
           DialogCallback.layers_scale_callback none,
         Call.dialogs_attach_dialog (Obj.layer 7) DialogKey.SCALE_DIALOG_KEY
           GtkWidget.new_dialog,
         Call.gtk_window_present GtkWidget.new_dialog] :=
  (next_dialog_settings ⟨none, false⟩ example_data example_answers example_image
    example_layer (GtkWidget.widget 5) 3 example_item ⟨2⟩ 200 150 (GimpUnit.other 1)
    3 0 0 none none Statics.initial rfl rfl rfl).1 rfl

/-! ## The scale commit: progress surface, progress scope, flush -/

/-- The log of a scale commit that reaches the mutation: every call is made
with the committed unit and interpolation already stored. -/
theorem layers_scale_callback_log (dialog : Nat) (viewable : GimpItem)
    (width height : Int) (unit : GimpUnit) (interpolation : GimpInterpolationType)
    (user_data : Option GimpDisplay) (started : Option GimpProgress) (g : Statics)
    (hw : 0 < width) (hh : 0 < height)
    (hdiff : ¬ (width = viewable.width ∧ height = viewable.height)) :
    (layers_scale_callback dialog viewable width height unit interpolation
        user_data started (St.start g)).log
      = (([Call.gtk_widget_destroy (GtkWidget.widget dialog)]
          ++ (match user_data with
              | some _ => []
              | none => [Call.gimp_progress_dialog_new])
          ++ [Call.gimp_progress_start
                (match user_data with
                 | some d => GimpProgress.display d
                 | none => GimpProgress.progress_dialog) false "Scaling",
              Call.gimp_item_scale_by_origin viewable.id width height
                interpolation started true]
          ++ (match started with
              | some p => [Call.gimp_progress_end p]
              | none => [])
          ++ (match user_data with
              | some _ => []
              | none => [Call.gtk_widget_destroy GtkWidget.progress_dialog])
          ++ [Call.gimp_image_flush viewable.image]).map
          (fun c => (({ g with layer_scale_unit := unit,
                               layer_scale_interp := interpolation } : Statics), c))) := by
  cases user_data <;> cases started <;>
    simp [layers_scale_callback, hw, hh, hdiff, St.call, St.start]

/-- C8: in a scale commit that reaches the mutation, a standalone progress
surface is created exactly when no display is bound; when created it is
destroyed exactly once, after the scale call (and the progress end) and right
before the flush; with a display bound the display is the progress surface and
no surface is created or destroyed.  A rejected or skipped commit (dimensions
`width0`, `height0`) creates no progress surface. -/
theorem progress_surface_lifecycle (dialog : Nat) (viewable : GimpItem)
    (width height width0 height0 : Int) (unit : GimpUnit)
    (interpolation : GimpInterpolationType)
    (user_data : Option GimpDisplay) (started : Option GimpProgress) (g : Statics)
    (hw : 0 < width) (hh : 0 < height)
    (hdiff : ¬ (width = viewable.width ∧ height = viewable.height))
    (hskip : width0 ≤ 0 ∨ height0 ≤ 0
      ∨ (width0 = viewable.width ∧ height0 = viewable.height)) :
    (layers_scale_callback dialog viewable width height unit interpolation
        user_data started (St.start g)).calls.countP Call.isSurfaceNew
      = (if user_data.isNone then 1 else 0)
    ∧ (layers_scale_callback dialog viewable width height unit interpolation
        user_data started (St.start g)).calls.countP Call.isSurfaceDestroy
      = (if user_data.isNone then 1 else 0)
    ∧ (layers_scale_callback dialog viewable width height unit interpolation
        user_data started (St.start g)).calls
      = (match user_data with
         | none =>
           [Call.gtk_widget_destroy (GtkWidget.widget dialog),
            Call.gimp_progress_dialog_new,
            Call.gimp_progress_start GimpProgress.progress_dialog false "Scaling",
            Call.gimp_item_scale_by_origin viewable.id width height interpolation
              started true]
           ++ (match started with
               | some p => [Call.gimp_progress_end p]
               | none => [])
           ++ [Call.gtk_widget_destroy GtkWidget.progress_dialog,
               Call.gimp_image_flush viewable.image]
         | some d =>
           [Call.gtk_widget_destroy (GtkWidget.widget dialog),
            Call.gimp_progress_start (GimpProgress.display d) false "Scaling",
            Call.gimp_item_scale_by_origin viewable.id width height interpolation
              started true]
           ++ (match started with
               | some p => [Call.gimp_progress_end p]
               | none => [])
           ++ [Call.gimp_image_flush viewable.image])
    ∧ (layers_scale_callback dialog viewable width0 height0 unit interpolation
        user_data started (St.start g)).calls.countP Call.isSurfaceNew = 0 := by
  refine ⟨?_, ?_, ?_, ?_⟩
  · simp only [St.calls, layers_scale_callback_log _ _ _ _ _ _ _ _ _ hw hh hdiff]
    cases user_data <;> cases started <;>
      simp [List.countP_cons, Call.isSurfaceNew]
  · simp only [St.calls, layers_scale_callback_log _ _ _ _ _ _ _ _ _ hw hh hdiff]
    cases user_data <;> cases started <;>
      simp [List.countP_cons, Call.isSurfaceDestroy]
  · simp only [St.calls, layers_scale_callback_log _ _ _ _ _ _ _ _ _ hw hh hdiff]
    cases user_data <;> cases started <;> simp
  · by_cases hv : 0 < width0 ∧ 0 < height0
    · have hs : width0 = viewable.width ∧ height0 = viewable.height := by omega
      obtain ⟨hv1, hv2⟩ := hv
      obtain ⟨hs1, hs2⟩ := hs
      subst hs1 hs2
      simp [layers_scale_callback, hv1, hv2, List.countP_cons, Call.isSurfaceNew]
    · simp [layers_scale_callback, hv, List.countP_cons, Call.isSurfaceNew]

/-- Witness for C8: scaling the 100 x 100 example item to 200 x 150 without a
display creates and destroys one progress surface; the rejected width 0
creates none. -/
theorem progress_surface_lifecycle_witness :
    (layers_scale_callback 3 example_item 200 150 GimpUnit.GIMP_UNIT_PIXEL 2
        none (some GimpProgress.progress_dialog)
        (St.start Statics.initial)).calls.countP Call.isSurfaceNew = 1
    ∧ (layers_scale_callback 3 example_item 200 150 GimpUnit.GIMP_UNIT_PIXEL 2
        none (some GimpProgress.progress_dialog)
        (St.start Statics.initial)).calls.countP Call.isSurfaceDestroy = 1 :=
  ⟨(progress_surface_lifecycle 3 example_item 200 150 0 150
      GimpUnit.GIMP_UNIT_PIXEL 2 none (some GimpProgress.progress_dialog)
      Statics.initial (by decide) (by decide) (by decide)
      (Or.inl (le_refl 0))).1,
   (progress_surface_lifecycle 3 example_item 200 150 0 150
      GimpUnit.GIMP_UNIT_PIXEL 2 none (some GimpProgress.progress_dialog)
      Statics.initial (by decide) (by decide) (by decide)
      (Or.inl (le_refl 0))).2.1⟩

/-- C9, as stated, fails: when `gimp_progress_start` returns `NULL`, the scale
commit of 200 x 150 on the 100 x 100 example item starts the progress once and
ends it not at all. -/
theorem progress_not_ended_when_start_fails :
    (layers_scale_callback 3 example_item 200 150 GimpUnit.GIMP_UNIT_PIXEL 2
        none none (St.start Statics.initial)).calls.countP Call.isProgressStart = 1
    ∧ (layers_scale_callback 3 example_item 200 150 GimpUnit.GIMP_UNIT_PIXEL 2
        none none (St.start Statics.initial)).calls.countP Call.isProgressEnd = 0
    ∧ (layers_scale_callback 3 example_item 200 150 GimpUnit.GIMP_UNIT_PIXEL 2
        none none (St.start Statics.initial)).calls.countP Call.isProgressEnd ≠ 1 := by
  decide

/-- C9, amended: in a scale commit that reaches the mutation, exactly one
progress start precedes the scale call; when the start returns a progress,
exactly one progress end, of the returned progress, follows the scale call;
when the start returns `NULL`, no progress end is called.  The progress is
never ended twice. -/
theorem progress_scope_bracket (dialog : Nat) (viewable : GimpItem)
    (width height : Int) (unit : GimpUnit) (interpolation : GimpInterpolationType)
    (user_data : Option GimpDisplay) (started : Option GimpProgress) (g : Statics)
    (hw : 0 < width) (hh : 0 < height)
    (hdiff : ¬ (width = viewable.width ∧ height = viewable.height)) :
    (layers_scale_callback dialog viewable width height unit interpolation
        user_data started (St.start g)).calls.countP Call.isProgressStart = 1
    ∧ (layers_scale_callback dialog viewable width height unit interpolation
        user_data started (St.start g)).calls.countP Call.isProgressEnd
      = (if started.isSome then 1 else 0)
    ∧ (layers_scale_callback dialog viewable width height unit interpolation
        user_data started (St.start g)).calls.filter
          (fun c => c.isProgressStart || c.isScale || c.isProgressEnd)
      = [Call.gimp_progress_start
           (match user_data with
            | some d => GimpProgress.display d
            | none => GimpProgress.progress_dialog) false "Scaling",
         Call.gimp_item_scale_by_origin viewable.id width height interpolation
           started true]
        ++ (match started with
            | some p => [Call.gimp_progress_end p]
            | none => []) := by
  refine ⟨?_, ?_, ?_⟩
  all_goals
    simp only [St.calls, layers_scale_callback_log _ _ _ _ _ _ _ _ _ hw hh hdiff]
    cases user_data <;> cases started <;>
      simp [List.countP_cons, List.filter_cons, Call.isProgressStart,
        Call.isProgressEnd, Call.isScale]

/-- Witness for C9 (amended): with the start returning the surface, the scale
commit of 200 x 150 on the example item ends the progress exactly once. -/
theorem progress_scope_bracket_witness :
    (layers_scale_callback 3 example_item 200 150 GimpUnit.GIMP_UNIT_PIXEL 2
        none (some GimpProgress.progress_dialog)
        (St.start Statics.initial)).calls.countP Call.isProgressEnd = 1 :=
  (progress_scope_bracket 3 example_item 200 150 GimpUnit.GIMP_UNIT_PIXEL 2
    none (some GimpProgress.progress_dialog) Statics.initial
    (by decide) (by decide) (by decide)).2.1

/-- C10, as stated, fails: when `gimp_progress_start` returns `NULL`, the scale
commit of 200 x 150 on the 100 x 100 example item without a display flushes
the image without any progress end before the flush. -/
theorem flush_without_progress_end_when_start_fails :
    (0 : Int) < 200 ∧ (0 : Int) < 150
    ∧ ¬ ((200 : Int) = example_item.width ∧ (150 : Int) = example_item.height)
    ∧ (layers_scale_callback 3 example_item 200 150 GimpUnit.GIMP_UNIT_PIXEL 2
        none none (St.start Statics.initial)).calls
      = [Call.gtk_widget_destroy (GtkWidget.widget 3),
         Call.gimp_progress_dialog_new,
         Call.gimp_progress_start GimpProgress.progress_dialog false "Scaling",
         Call.gimp_item_scale_by_origin 7 200 150 2 none true,
         Call.gtk_widget_destroy GtkWidget.progress_dialog,
         Call.gimp_image_flush example_image]
    ∧ (layers_scale_callback 3 example_item 200 150 GimpUnit.GIMP_UNIT_PIXEL 2
        none none (St.start Statics.initial)).calls.countP Call.isProgressEnd = 0
    ∧ (layers_scale_callback 3 example_item 200 150 GimpUnit.GIMP_UNIT_PIXEL 2
        none none (St.start Statics.initial)).calls.countP Call.isFlush = 1 :=
  ⟨by decide, by decide, by decide, rfl, by decide, by decide⟩

/-- C10, amended: a scale commit without a bound display, with positive width
and height that differ from the item's (such as 200 x 150 on an item of
100 x 100), invokes the scale primitive exactly once, with the requested width
and height and with the interpolation that `layer_scale_interp` holds at the
moment of the call; it flushes the image exactly once, as its last call, right
after the destruction of the standalone surface.  When the progress start
returned a progress, the progress end is made exactly once, between the scale
call and the destruction of the surface; when it returned `NULL`, no progress
end is made. -/
theorem scale_commit_without_display (dialog : Nat) (viewable : GimpItem)
    (width height : Int) (unit : GimpUnit) (interpolation : GimpInterpolationType)
    (started : Option GimpProgress) (g : Statics)
    (hw : 0 < width) (hh : 0 < height)
    (hdiff : ¬ (width = viewable.width ∧ height = viewable.height)) :
    (layers_scale_callback dialog viewable width height unit interpolation
        none started (St.start g)).calls.countP Call.isScale = 1
    ∧ (∀ e ∈ (layers_scale_callback dialog viewable width height unit
          interpolation none started (St.start g)).log,
        e.2.isScale = true →
          e.2 = Call.gimp_item_scale_by_origin viewable.id width height
                  e.1.layer_scale_interp started true)
    ∧ (layers_scale_callback dialog viewable width height unit interpolation
        none started (St.start g)).calls.countP Call.isFlush = 1
    ∧ (layers_scale_callback dialog viewable width height unit interpolation
        none started (St.start g)).calls
      = [Call.gtk_widget_destroy (GtkWidget.widget dialog),
         Call.gimp_progress_dialog_new,
         Call.gimp_progress_start GimpProgress.progress_dialog false "Scaling",
         Call.gimp_item_scale_by_origin viewable.id width height interpolation
           started true]
        ++ (match started with
            | some p => [Call.gimp_progress_end p]
            | none => [])
        ++ [Call.gtk_widget_destroy GtkWidget.progress_dialog,
            Call.gimp_image_flush viewable.image]
    ∧ (layers_scale_callback dialog viewable width height unit interpolation
        none started (St.start g)).calls.countP Call.isProgressEnd
      = (if started.isSome then 1 else 0) := by
  refine ⟨?_, ?_, ?_, ?_, ?_⟩
  · simp only [St.calls, layers_scale_callback_log _ _ _ _ _ _ _ _ _ hw hh hdiff]
    cases started <;> simp [List.countP_cons, Call.isScale]
  · simp only [layers_scale_callback_log _ _ _ _ _ _ _ _ _ hw hh hdiff]
    cases started <;> simp [Call.isScale]
  · simp only [St.calls, layers_scale_callback_log _ _ _ _ _ _ _ _ _ hw hh hdiff]
    cases started <;> simp [List.countP_cons, Call.isFlush]
  · simp only [St.calls, layers_scale_callback_log _ _ _ _ _ _ _ _ _ hw hh hdiff]
    cases started <;> simp
  · simp only [St.calls, layers_scale_callback_log _ _ _ _ _ _ _ _ _ hw hh hdiff]
    cases started <;> simp [List.countP_cons, Call.isProgressEnd]

/-- Witness for C10 (amended): the scenario of the specification, a scale
commit of 200 x 150 on the 100 x 100 example item without a display, with the
progress start returning the surface. -/
theorem scale_commit_without_display_witness :
    (layers_scale_callback 3 example_item 200 150 GimpUnit.GIMP_UNIT_PIXEL 2
        none (some GimpProgress.progress_dialog) (St.start Statics.initial)).calls
      = [Call.gtk_widget_destroy (GtkWidget.widget 3),
         Call.gimp_progress_dialog_new,
         Call.gimp_progress_start GimpProgress.progress_dialog false "Scaling",
         Call.gimp_item_scale_by_origin 7 200 150 2
           (some GimpProgress.progress_dialog) true,
         Call.gimp_progress_end GimpProgress.progress_dialog,
         Call.gtk_widget_destroy GtkWidget.progress_dialog,
         Call.gimp_image_flush example_image] :=
  (scale_commit_without_display 3 example_item 200 150 GimpUnit.GIMP_UNIT_PIXEL 2
    (some GimpProgress.progress_dialog) Statics.initial
    (by decide) (by decide) (by decide)).2.2.2.1

/-! ## Adding a mask -/

/-- C11: for an active layer that already has a mask, both add-mask commands
make no call at all (no dialog made or presented, no mask created, no add-mask
primitive, no message, no flush) and leave the settings as they are. -/
theorem mask_add_on_masked_layer_is_silent (action : GtkAction) (data : ActionData)
    (a : Answers) (layer : GimpLayer) (g : Statics)
    (hlayer : a.active_layer = some layer) (hmask : layer.mask.isSome = true) :
    (layers_mask_add_cmd_callback action data a (St.start g)).calls = []
    ∧ (layers_mask_add_last_vals_cmd_callback action data a (St.start g)).calls = []
    ∧ (layers_mask_add_cmd_callback action data a (St.start g)).statics = g
    ∧ (layers_mask_add_last_vals_cmd_callback action data a (St.start g)).statics
      = g := by
  refine ⟨?_, ?_, ?_, ?_⟩
  all_goals
    simp only [layers_mask_add_last_vals_cmd_callback, layers_mask_add_cmd_callback,
      hlayer, hmask]
    (repeat' split) <;> simp_all

/-- Witness for C11: the masked example layer. -/
theorem mask_add_on_masked_layer_is_silent_witness :
    (layers_mask_add_cmd_callback ⟨none, false⟩ example_data example_masked_answers
        (St.start Statics.initial)).calls = []
    ∧ (layers_mask_add_last_vals_cmd_callback ⟨none, false⟩ example_data
        example_masked_answers (St.start Statics.initial)).calls = [] :=
  ⟨(mask_add_on_masked_layer_is_silent ⟨none, false⟩ example_data
      example_masked_answers example_masked_layer Statics.initial rfl rfl).1,
   (mask_add_on_masked_layer_is_silent ⟨none, false⟩ example_data
      example_masked_answers example_masked_layer Statics.initial rfl rfl).2.1⟩

/-- C12: the add-mask dialog commit stores the choices, creates the mask
(inverting it when asked) and calls the add-mask primitive; when the primitive
refuses, it then reports exactly one warning with the primitive's error text,
releases the created mask once and clears the error (no flush, dialog kept);
when the primitive accepts, it then flushes the image once and destroys the
dialog (no message, mask not released). -/
theorem add_mask_commit_outcomes (dialog : Nat) (layer : GimpLayer)
    (add_mask_type : GimpAddMaskType) (channel : Option Nat) (invert : Bool)
    (add_mask_error : Option String) (g : Statics) :
    (layers_add_mask_callback dialog layer add_mask_type channel invert
        add_mask_error (St.start g)).calls
      = [Call.g_object_set_layer_add_mask add_mask_type invert,
         Call.gimp_layer_create_mask layer.id add_mask_type channel]
        ++ (if invert then [Call.gimp_channel_invert Obj.new_mask false] else [])
        ++ [Call.gimp_layer_add_mask layer.id Obj.new_mask true true]
        ++ (match add_mask_error with
            | some message =>
              [Call.gimp_message_literal (GtkWidget.widget dialog)
                 GimpMessageSeverity.GIMP_MESSAGE_WARNING message,
               Call.g_object_unref Obj.new_mask,
               Call.g_clear_error]
            | none =>
              [Call.gimp_image_flush layer.image,
               Call.gtk_widget_destroy (GtkWidget.widget dialog)])
    ∧ (layers_add_mask_callback dialog layer add_mask_type channel invert
        add_mask_error (St.start g)).calls.countP Call.isMessage
      = (if add_mask_error.isSome then 1 else 0)
    ∧ (layers_add_mask_callback dialog layer add_mask_type channel invert
        add_mask_error (St.start g)).calls.countP Call.isUnref
      = (if add_mask_error.isSome then 1 else 0)
    ∧ (layers_add_mask_callback dialog layer add_mask_type channel invert
        add_mask_error (St.start g)).calls.countP Call.isFlush
      = (if add_mask_error.isSome then 0 else 1) := by
  refine ⟨?_, ?_, ?_, ?_⟩
  all_goals
    cases invert <;> cases add_mask_error <;>
      simp [layers_add_mask_callback, List.countP_cons, Call.isMessage,
        Call.isUnref, Call.isFlush]

/-! ## Dimensions that reach the resize primitive -/

/-- C14: every callback of the file, delegating ones included, flushes the image
at most once per invocation and never while an undo group it opened is still
open.  In `layers_new_last_vals_cmd_callback` (image and widget present, no
floating selection) the fill, the translation and the addition of the new
layer are made inside the undo group and followed by exactly one flush, made
after the group is closed. -/
theorem flush_discipline (inv : Invocation) (action : GtkAction) (data : ActionData)
    (a : Answers) (image : GimpImage) (widget : GtkWidget) (g : Statics)
    (himage : data.image = some image) (hwidget : data.widget = some widget)
    (hfloat : a.floating_sel = none) :
    (inv.run (St.start g)).calls.countP Call.isFlush ≤ 1
    ∧ flushScan (inv.run (St.start g)).calls 0 = true
    ∧ (layers_new_last_vals_cmd_callback action data a (St.start g)).calls
      = [Call.gimp_image_undo_group_start image
           GimpUndoType.GIMP_UNDO_GROUP_EDIT_PASTE "New Layer",
         Call.gimp_layer_new image
           (match action.viewable with
            | some template => template.width
            | none => image.width)
           (match action.viewable with
            | some template => template.height
            | none => image.height)
           a.config.layer_new_name
           (match action.viewable with
            | some template => template.opacity
            | none => 1)
           (match action.viewable with
            | some template => template.mode
            | none => GimpLayerModeEffects.GIMP_NORMAL_MODE),
         Call.gimp_drawable_fill Obj.new_layer data.context
           a.config.layer_new_fill_type,
         Call.gimp_item_translate Obj.new_layer
           (match action.viewable with
            | some template => template.offset_x
            | none => 0)
           (match action.viewable with
            | some template => template.offset_y
            | none => 0) false,
         Call.gimp_image_add_layer image Obj.new_layer (some Obj.active_parent)
           (-1) true,
         Call.gimp_image_undo_group_end image,
         Call.gimp_image_flush image] := by
  refine ⟨?_, ?_, ?_⟩
  · cases inv <;> simp only [Invocation.run]
    all_goals
      first
      | (unfold layers_text_tool_cmd_callback layers_edit_attributes_cmd_callback)
      | (unfold layers_new_last_vals_cmd_callback layers_new_cmd_callback)
      | (unfold layers_mask_add_last_vals_cmd_callback layers_mask_add_cmd_callback)
      | skip
    all_goals
      simp only [layers_edit_attributes_cmd_callback, layers_new_cmd_callback,
        layers_new_from_visible_cmd_callback, layers_new_group_cmd_callback,
        layers_select_cmd_callback, layers_raise_cmd_callback,
        layers_raise_to_top_cmd_callback, layers_lower_cmd_callback,
        layers_lower_to_bottom_cmd_callback, layers_duplicate_cmd_callback,
        layers_anchor_cmd_callback, layers_merge_down_cmd_callback,
        layers_merge_group_cmd_callback, layers_delete_cmd_callback,
        layers_text_discard_cmd_callback, layers_text_to_vectors_cmd_callback,
        layers_text_along_vectors_cmd_callback, layers_resize_cmd_callback,
        layers_resize_to_image_cmd_callback, layers_scale_cmd_callback,
        layers_crop_to_selection_cmd_callback, layers_crop_to_content_cmd_callback,
        layers_mask_add_cmd_callback, layers_mask_apply_cmd_callback,
        layers_mask_edit_cmd_callback, layers_mask_show_cmd_callback,
        layers_mask_disable_cmd_callback, layers_mask_to_selection_cmd_callback,
        layers_alpha_add_cmd_callback, layers_alpha_remove_cmd_callback,
        layers_alpha_to_selection_cmd_callback, layers_opacity_cmd_callback,
        layers_mode_cmd_callback, layers_lock_alpha_cmd_callback,
        layers_new_callback, layers_edit_attributes_callback,
        layers_add_mask_callback, layers_scale_callback, layers_resize_callback]
    all_goals
      (repeat' split) <;> simp [List.countP_cons, Call.isFlush]
  · cases inv <;> simp only [Invocation.run]
    all_goals
      first
      | (unfold layers_text_tool_cmd_callback layers_edit_attributes_cmd_callback)
      | (unfold layers_new_last_vals_cmd_callback layers_new_cmd_callback)
      | (unfold layers_mask_add_last_vals_cmd_callback layers_mask_add_cmd_callback)
      | skip
    all_goals
      simp only [layers_edit_attributes_cmd_callback, layers_new_cmd_callback,
        layers_new_from_visible_cmd_callback, layers_new_group_cmd_callback,
        layers_select_cmd_callback, layers_raise_cmd_callback,
        layers_raise_to_top_cmd_callback, layers_lower_cmd_callback,
        layers_lower_to_bottom_cmd_callback, layers_duplicate_cmd_callback,
        layers_anchor_cmd_callback, layers_merge_down_cmd_callback,
        layers_merge_group_cmd_callback, layers_delete_cmd_callback,
        layers_text_discard_cmd_callback, layers_text_to_vectors_cmd_callback,
        layers_text_along_vectors_cmd_callback, layers_resize_cmd_callback,
        layers_resize_to_image_cmd_callback, layers_scale_cmd_callback,
        layers_crop_to_selection_cmd_callback, layers_crop_to_content_cmd_callback,
        layers_mask_add_cmd_callback, layers_mask_apply_cmd_callback,
        layers_mask_edit_cmd_callback, layers_mask_show_cmd_callback,
        layers_mask_disable_cmd_callback, layers_mask_to_selection_cmd_callback,
        layers_alpha_add_cmd_callback, layers_alpha_remove_cmd_callback,
        layers_alpha_to_selection_cmd_callback, layers_opacity_cmd_callback,
        layers_mode_cmd_callback, layers_lock_alpha_cmd_callback,
        layers_new_callback, layers_edit_attributes_callback,
        layers_add_mask_callback, layers_scale_callback, layers_resize_callback]
    all_goals
      (repeat' split) <;> simp [flushScan]
  · simp [layers_new_last_vals_cmd_callback, himage, hwidget, hfloat]

/-- Witness for C14: the new-layer command with last values on the example
image, where nothing floats. -/
theorem flush_discipline_witness :
    (layers_new_last_vals_cmd_callback ⟨none, false⟩ example_data example_answers
        (St.start Statics.initial)).calls.countP Call.isFlush ≤ 1
    ∧ flushScan (layers_new_last_vals_cmd_callback ⟨none, false⟩ example_data
        example_answers (St.start Statics.initial)).calls 0 = true :=
  ⟨(flush_discipline
      (Invocation.layers_new_last_vals_cmd_callback ⟨none, false⟩ example_data
        example_answers)
      ⟨none, false⟩ example_data example_answers example_image (GtkWidget.widget 5)
      Statics.initial rfl rfl rfl).1,
   (flush_discipline
      (Invocation.layers_new_last_vals_cmd_callback ⟨none, false⟩ example_data
        example_answers)
      ⟨none, false⟩ example_data example_answers example_image (GtkWidget.widget 5)
      Statics.initial rfl rfl rfl).2.1⟩

/-! ## The edit-attributes commit -/

/-- C16: the edit-attributes dialog commit.  With the requested name equal to
the layer's name it does not call the rename primitive and does not flush;
with a different name it calls the rename primitive once and, when that is
refused, reports exactly one warning and returns (no flush, no auto-rename
write, dialog kept), and when it succeeds flushes the image once.  On every
path but the refused rename it then writes the auto-rename property exactly
when the layer is a text layer and destroys the dialog once. -/
theorem edit_attributes_commit_outcomes (dialog : Nat) (image : GimpImage)
    (layer : GimpLayer) (layer_name : String) (rename_text_layer : Bool)
    (rename_error : Option String) (g : Statics) :
    (layers_edit_attributes_callback dialog image layer layer_name
        rename_text_layer rename_error (St.start g)).calls
      = (if layer_name = layer.name then
          (if layer.is_text_layer then
             [Call.g_object_set_auto_rename layer.id rename_text_layer]
           else [])
          ++ [Call.gtk_widget_destroy (GtkWidget.widget dialog)]
         else
          match rename_error with
          | some message =>
            [Call.gimp_item_rename layer.id layer_name,
             Call.gimp_message_literal (GtkWidget.widget dialog)
               GimpMessageSeverity.GIMP_MESSAGE_WARNING message,
             Call.g_clear_error]
          | none =>
            [Call.gimp_item_rename layer.id layer_name,
             Call.gimp_image_flush image]
            ++ (if layer.is_text_layer then
                  [Call.g_object_set_auto_rename layer.id rename_text_layer]
                else [])
            ++ [Call.gtk_widget_destroy (GtkWidget.widget dialog)]) := by
  by_cases hname : layer_name = layer.name <;>
    cases rename_error <;> cases htext : layer.is_text_layer <;>
      simp [layers_edit_attributes_callback, hname, htext]

/-! ## New layer with a floating selection -/

/-- C17: with image and widget present and a floating selection in the image,
both new-layer commands call the floating-selection-to-layer primitive exactly
once and then flush the image once when it succeeds, or report exactly one
warning (and clear the error) when it fails; they make no other call: no
dialog, no new layer, no undo group. -/
theorem new_layer_with_floating_selection (action : GtkAction) (data : ActionData)
    (a : Answers) (image : GimpImage) (widget : GtkWidget) (floating_sel : Nat)
    (g : Statics)
    (himage : data.image = some image) (hwidget : data.widget = some widget)
    (hfloat : a.floating_sel = some floating_sel) :
    (layers_new_cmd_callback action data a (St.start g)).calls
      = [Call.floating_sel_to_layer floating_sel]
        ++ (match a.floating_sel_to_layer_error with
            | none => [Call.gimp_image_flush image]
            | some message =>
              [Call.gimp_message_literal widget
                 GimpMessageSeverity.GIMP_MESSAGE_WARNING message,
               Call.g_clear_error])
    ∧ (layers_new_last_vals_cmd_callback action data a (St.start g)).calls
      = [Call.floating_sel_to_layer floating_sel]
        ++ (match a.floating_sel_to_layer_error with
            | none => [Call.gimp_image_flush image]
            | some message =>
              [Call.gimp_message_literal widget
                 GimpMessageSeverity.GIMP_MESSAGE_WARNING message,
               Call.g_clear_error]) := by
  constructor
  · cases herr : a.floating_sel_to_layer_error <;>
      simp [layers_new_cmd_callback, himage, hwidget, hfloat, herr]
  · cases herr : a.floating_sel_to_layer_error <;>
      simp [layers_new_last_vals_cmd_callback, layers_new_cmd_callback, himage,
        hwidget, hfloat, herr]

/-- Witness for C17: the example image with floating selection 11, converted
successfully. -/
theorem new_layer_with_floating_selection_witness :
    (layers_new_last_vals_cmd_callback ⟨none, false⟩ example_data
        example_floating_answers (St.start Statics.initial)).calls
      = [Call.floating_sel_to_layer 11, Call.gimp_image_flush example_image] :=
  (new_layer_with_floating_selection ⟨none, false⟩ example_data
    example_floating_answers example_image (GtkWidget.widget 5) 11
    Statics.initial rfl rfl rfl).2

/-! ## `layers_mode_index` and the table of modes -/

/-- Fuel beyond what brings the loop of `layers_mode_index` to the last index
changes nothing. -/
theorem layers_mode_index_loop_more_fuel (layer_mode : GimpLayerModeEffects) :
    ∀ (n k i : Nat), layer_modes_n - 1 ≤ i + n →
      layers_mode_index_loop layer_mode (n + k) i
        = layers_mode_index_loop layer_mode n i := by
  intro n
  induction n with
  | zero =>
    intro k i h
    have hi : ¬ i < layer_modes_n - 1 := by omega
    cases k with
    | zero => rfl
    | succ k =>
      simp only [Nat.zero_add, layers_mode_index_loop]
      rw [if_neg (fun hc => hi hc.1)]
  | succ n ih =>
    intro k i h
    have hk : n + 1 + k = (n + k) + 1 := by omega
    rw [hk]
    simp only [layers_mode_index_loop]
    by_cases hc : i < layer_modes_n - 1 ∧ layer_modes.get? i ≠ some layer_mode
    · rw [if_pos hc, if_pos hc]
      exact ih k (i + 1) (by omega)
    · rw [if_neg hc, if_neg hc]

/-- C18: `layers_mode_index` is a left inverse of the table `layer_modes`: the
index of the mode at position `i` is `i` for each of the 25 positions, the
table holds `m` at the index of every mode `m` that occurs in it, and the 25
entries are pairwise distinct. -/
theorem layers_mode_index_left_inverse :
    layer_modes.length = 25
    ∧ (∀ i : Fin layer_modes.length, layers_mode_index (layer_modes.get i) = i.val)
    ∧ (∀ m : GimpLayerModeEffects, m ∈ layer_modes →
        layer_modes.get? (layers_mode_index m) = some m)
    ∧ layer_modes.Nodup := by
  refine ⟨rfl, by decide, ?_, by decide⟩
  intro m
  cases m <;> decide

/-- C19: for every mode `m`, `layers_mode_index m` is at most 24; it is the
first index at which the loop condition `i < 24 && layer_modes[i] != m` fails
(so the loop ends there, however much fuel the embedding is given beyond 25);
the loop reads the table only at indices below its length; and when `m` does
not occur in the table the result is 24, the index of GIMP_LCH_LIGHTNESS_MODE,
which is also the index of that last mode itself. -/
theorem layers_mode_index_total (m : GimpLayerModeEffects) :
    layers_mode_index m ≤ 24
    ∧ ¬ (layers_mode_index m < layer_modes_n - 1
          ∧ layer_modes.get? (layers_mode_index m) ≠ some m)
    ∧ (∀ j, j < layers_mode_index m →
        j < layer_modes_n - 1 ∧ layer_modes.get? j ≠ some m)
    ∧ (∀ k, layers_mode_index_loop m (layer_modes_n + k) 0 = layers_mode_index m)
    ∧ (∀ i ∈ layers_mode_index_reads m layer_modes_n 0, i < layer_modes.length)
    ∧ (m ∉ layer_modes → layers_mode_index m = 24)
    ∧ layer_modes.get? 24 = some GimpLayerModeEffects.GIMP_LCH_LIGHTNESS_MODE
    ∧ (m ∉ layer_modes →
        layers_mode_index m
          = layers_mode_index GimpLayerModeEffects.GIMP_LCH_LIGHTNESS_MODE) := by
  refine ⟨?_, ?_, ?_, ?_, ?_, ?_, rfl, ?_⟩
  · cases m <;> decide
  · cases m <;> decide
  · cases m <;> decide
  · intro k
    exact layers_mode_index_loop_more_fuel m layer_modes_n k 0 (by decide)
  · cases m <;> decide
  · cases m <;> decide
  · cases m <;> decide

/-! ## Undo compression -/

/-- C21: with image, layer and widget present, `layers_crop_to_selection_cmd_callback`
makes exactly one call, a warning message, when the selection has no bounds
(no undo group, no resize, no flush); otherwise it makes exactly the calls undo
group start, resize, undo group end, flush, where for selection bounds
(x, y, w, h) and layer offset (ox, oy) the resize gets width w, height h and
the `gint` differences of the offsets, which are (ox - x, oy - y) whenever
these differences fit a `gint`; this happens whatever w and h are, also when
they equal the layer's current width and height.  Every offset passed is a
`gint`. -/
theorem crop_to_selection_outcomes (action : GtkAction) (data : ActionData)
    (a : Answers) (image : GimpImage) (layer : GimpLayer) (widget : GtkWidget)
    (g : Statics)
    (himage : data.image = some image) (hlayer : a.active_layer = some layer)
    (hwidget : data.widget = some widget) :
    (layers_crop_to_selection_cmd_callback action data a (St.start g)).calls
      = (if a.selection_bounds.nonempty then
          [Call.gimp_image_undo_group_start image
             GimpUndoType.GIMP_UNDO_GROUP_ITEM_RESIZE "Crop Layer to Selection",
           Call.gimp_item_resize layer.id data.context
             a.selection_bounds.width a.selection_bounds.height
             (gint_sub layer.offset_x a.selection_bounds.x)
             (gint_sub layer.offset_y a.selection_bounds.y),
           Call.gimp_image_undo_group_end image,
           Call.gimp_image_flush image]
         else
          [Call.gimp_message_literal widget
             GimpMessageSeverity.GIMP_MESSAGE_WARNING
             "Cannot crop because the current selection is empty."])
    ∧ (a.selection_bounds.nonempty = true →
        gint_fits (layer.offset_x - a.selection_bounds.x) →
        gint_fits (layer.offset_y - a.selection_bounds.y) →
        (layers_crop_to_selection_cmd_callback action data a (St.start g)).calls
          = [Call.gimp_image_undo_group_start image
               GimpUndoType.GIMP_UNDO_GROUP_ITEM_RESIZE "Crop Layer to Selection",
             Call.gimp_item_resize layer.id data.context
               a.selection_bounds.width a.selection_bounds.height
               (layer.offset_x - a.selection_bounds.x)
               (layer.offset_y - a.selection_bounds.y),
             Call.gimp_image_undo_group_end image,
             Call.gimp_image_flush image])
    ∧ gint_fits (gint_sub layer.offset_x a.selection_bounds.x)
    ∧ gint_fits (gint_sub layer.offset_y a.selection_bounds.y)
    ∧ ((a.selection_bounds.nonempty = true
          ∧ a.selection_bounds.width = layer.width
          ∧ a.selection_bounds.height = layer.height) →
        (layers_crop_to_selection_cmd_callback action data a
            (St.start g)).calls.countP Call.isResize = 1
        ∧ (layers_crop_to_selection_cmd_callback action data a
            (St.start g)).calls.countP Call.isUndoGroupStart = 1
        ∧ (layers_crop_to_selection_cmd_callback action data a
            (St.start g)).calls.countP Call.isFlush = 1) := by
  refine ⟨?_, ?_, gint_fits_wrap _, gint_fits_wrap _, ?_⟩
  · cases hb : a.selection_bounds.nonempty <;>
      simp [layers_crop_to_selection_cmd_callback, himage, hlayer, hwidget, hb]
  · intro hb hx hy
    simp [layers_crop_to_selection_cmd_callback, himage, hlayer, hwidget, hb,
      gint_sub_of_fits _ _ hx, gint_sub_of_fits _ _ hy]
  · rintro ⟨hb, -, -⟩
    simp [layers_crop_to_selection_cmd_callback, himage, hlayer, hwidget, hb,
      List.countP_cons, Call.isResize, Call.isUndoGroupStart, Call.isFlush]

/-- Witness for C21: the example layer at offset (10, 20) with a selection of
100 x 100 at (10, 20), which covers it exactly; the resize to the unchanged
100 x 100 is made all the same, with offsets (10 - 10, 20 - 20). -/
theorem crop_to_selection_outcomes_witness :
    gint_fits (example_layer.offset_x - example_full_selection_answers.selection_bounds.x)
    ∧ gint_fits
        (example_layer.offset_y - example_full_selection_answers.selection_bounds.y)
    ∧ (layers_crop_to_selection_cmd_callback ⟨none, false⟩ example_data
        example_full_selection_answers (St.start Statics.initial)).calls
      = [Call.gimp_image_undo_group_start example_image
           GimpUndoType.GIMP_UNDO_GROUP_ITEM_RESIZE "Crop Layer to Selection",
         Call.gimp_item_resize 7 ⟨2⟩ 100 100 (10 - 10) (20 - 20),
         Call.gimp_image_undo_group_end example_image,
         Call.gimp_image_flush example_image] :=
  ⟨⟨by decide, by decide⟩, ⟨by decide, by decide⟩,
   (crop_to_selection_outcomes ⟨none, false⟩ example_data
      example_full_selection_answers example_image example_layer
      (GtkWidget.widget 5) Statics.initial rfl rfl rfl).2.1 rfl
      ⟨by decide, by decide⟩ ⟨by decide, by decide⟩⟩

/-! ## State-guarded commands -/

/-- C22: with image and layer present, each state-guarded command makes no call
when its guard fails and exactly one mutation followed by one flush when it
holds: the mask apply, edit, show, disable and to-selection commands are
guarded by the layer having a mask (disable sets apply-mask to the negation of
the toggle state), add-alpha by the layer having no alpha, remove-alpha by its
having alpha, lock-alpha by the toggle state differing from the layer's
lock-alpha, and anchor by the layer being a floating selection. -/
theorem guarded_commands (action : GtkAction) (value : Int) (data : ActionData)
    (a : Answers) (image : GimpImage) (layer : GimpLayer) (g : Statics)
    (himage : data.image = some image) (hlayer : a.active_layer = some layer) :
    (layers_mask_apply_cmd_callback action value data a (St.start g)).calls
      = (if layer.mask.isSome then
          [Call.gimp_layer_apply_mask layer.id value true,
           Call.gimp_image_flush image]
         else [])
    ∧ (layers_mask_edit_cmd_callback action data a (St.start g)).calls
      = (if layer.mask.isSome then
          [Call.gimp_layer_set_edit_mask layer.id action.active,
           Call.gimp_image_flush image]
         else [])
    ∧ (layers_mask_show_cmd_callback action data a (St.start g)).calls
      = (if layer.mask.isSome then
          [Call.gimp_layer_set_show_mask layer.id action.active true,
           Call.gimp_image_flush image]
         else [])
    ∧ (layers_mask_disable_cmd_callback action data a (St.start g)).calls
      = (if layer.mask.isSome then
          [Call.gimp_layer_set_apply_mask layer.id (! action.active) true,
           Call.gimp_image_flush image]
         else [])
    ∧ (layers_mask_to_selection_cmd_callback action value data a (St.start g)).calls
      = (match layer.mask with
         | some mask =>
           [Call.gimp_item_to_selection (Obj.layer_mask mask) value true false,
            Call.gimp_image_flush image]
         | none => [])
    ∧ (layers_alpha_add_cmd_callback action data a (St.start g)).calls
      = (if layer.has_alpha then []
         else [Call.gimp_layer_add_alpha layer.id, Call.gimp_image_flush image])
    ∧ (layers_alpha_remove_cmd_callback action data a (St.start g)).calls
      = (if layer.has_alpha then
          [Call.gimp_layer_remove_alpha layer.id data.context,
           Call.gimp_image_flush image]
         else [])
    ∧ (layers_lock_alpha_cmd_callback action data a (St.start g)).calls
      = (if action.active = layer.lock_alpha then []
         else
          [Call.gimp_layer_set_lock_alpha layer.id action.active
             (push_undo_for
               (a.undo_can_compress GimpUndoType.GIMP_UNDO_LAYER_LOCK_ALPHA) layer),
           Call.gimp_image_flush image])
    ∧ (layers_anchor_cmd_callback action data a (St.start g)).calls
      = (if layer.is_floating_sel then
          [Call.floating_sel_anchor layer.id, Call.gimp_image_flush image]
         else []) := by
  refine ⟨?_, ?_, ?_, ?_, ?_, ?_, ?_, ?_, ?_⟩
  · cases hm : layer.mask <;>
      simp [layers_mask_apply_cmd_callback, himage, hlayer, hm]
  · cases hm : layer.mask <;>
      simp [layers_mask_edit_cmd_callback, himage, hlayer, hm]
  · cases hm : layer.mask <;>
      simp [layers_mask_show_cmd_callback, himage, hlayer, hm]
  · cases hm : layer.mask <;>
      simp [layers_mask_disable_cmd_callback, himage, hlayer, hm]
  · cases hm : layer.mask <;>
      simp [layers_mask_to_selection_cmd_callback, himage, hlayer, hm]
  · cases ha : layer.has_alpha <;>
      simp [layers_alpha_add_cmd_callback, himage, hlayer, ha]
  · cases ha : layer.has_alpha <;>
      simp [layers_alpha_remove_cmd_callback, himage, hlayer, ha]
  · by_cases ht : action.active = layer.lock_alpha <;>
      simp [layers_lock_alpha_cmd_callback, himage, hlayer, ht]
  · cases hf : layer.is_floating_sel <;>
      simp [layers_anchor_cmd_callback, himage, hlayer, hf]

/-- Witness for C22: on the example layer, which has no mask, disabling the
mask makes no call; on the masked example layer with the toggle on, apply-mask
is set to FALSE and the image flushed. -/
theorem guarded_commands_witness :
    (layers_mask_disable_cmd_callback ⟨none, true⟩ example_data example_answers
        (St.start Statics.initial)).calls = []
    ∧ (layers_mask_disable_cmd_callback ⟨none, true⟩ example_data
        example_masked_answers (St.start Statics.initial)).calls
      = [Call.gimp_layer_set_apply_mask 7 false true,
         Call.gimp_image_flush example_image] :=
  ⟨(guarded_commands ⟨none, true⟩ 0 example_data example_answers example_image
      example_layer Statics.initial rfl rfl).2.2.2.1,
   (guarded_commands ⟨none, true⟩ 0 example_data example_masked_answers
      example_image example_masked_layer Statics.initial rfl rfl).2.2.2.1⟩

end LayersCommands
